import Mathlib

/-!
Verification development for the beethoven protocol-adapter layer.

The Rust sources are shallowly embedded:
* 32-byte ledger addresses are modelled as `Nat`; the named program-id
  constants decode (via base58) to pairwise distinct byte arrays, so they
  are assigned pairwise distinct naturals.  The two deposit program ids
  (`KAMINO_LEND_PROGRAM_ID` and `JUPITER_EARN_PROGRAM_ID`) are both the
  literal all-zero array `[0u8; 32]` in the source, so both are modelled
  as the same natural `0`.
* an `AccountView` is the pair of its address and its owner (the only two
  observations the embedded code makes of it);
* byte buffers are `List Nat` of u8 values; the `MaybeUninit` + raw
  pointer writes of the source are modelled by `writeBytesAt`, which
  overwrites a span of an existing buffer at a fixed offset;
* fallible constructors return `Except ProgramError`;
* a cross-program invocation is recorded as a `CPICall` (program id,
  account metadata, instruction bytes, account views); encoders return
  the list of calls they issue, and for the multi-step Kamino deposit the
  external environment is a function from call index to optional failure,
  with `execCPIs` issuing calls in order and aborting on the first
  failure, exactly as `invoke_signed(..)?` does in the source.
-/

namespace Beethoven

/-- Decidable equality of results, for evaluating concrete scenarios. -/
instance {ε α : Type} [DecidableEq ε] [DecidableEq α] : DecidableEq (Except ε α) := fun x y =>
  match x, y with
  | .ok a, .ok b =>
      if h : a = b then .isTrue (by rw [h])
      else .isFalse (by intro hc; injection hc; contradiction)
  | .error a, .error b =>
      if h : a = b then .isTrue (by rw [h])
      else .isFalse (by intro hc; injection hc; contradiction)
  | .ok _, .error _ => .isFalse (by intro hc; exact Except.noConfusion hc)
  | .error _, .ok _ => .isFalse (by intro hc; exact Except.noConfusion hc)

/-- Subset of `pinocchio::error::ProgramError` used by this code base.
`custom` stands for any other error value an external program returns. -/
inductive ProgramError
  | notEnoughAccountKeys
  | invalidInstructionData
  | invalidAccountData
  | custom (code : Nat)
deriving DecidableEq, Repr

/-- A borrowed ledger account: the embedded code only reads its address
(`.address()`) and its owner (`.owned_by(..)`). -/
structure AccountView where
  address : Nat
  owner : Nat
deriving DecidableEq, Repr

/-- `AccountView::owned_by(&program)` from pinocchio. -/
def AccountView.owned_by (a : AccountView) (program : Nat) : Bool :=
  a.owner == program

/-- `pinocchio::instruction::InstructionAccount`: address plus role. -/
structure InstructionAccount where
  address : Nat
  is_writable : Bool
  is_signer : Bool
deriving DecidableEq, Repr

def InstructionAccount.writable (a : Nat) : InstructionAccount :=
  ⟨a, true, false⟩

def InstructionAccount.readonly (a : Nat) : InstructionAccount :=
  ⟨a, false, false⟩

def InstructionAccount.writable_signer (a : Nat) : InstructionAccount :=
  ⟨a, true, true⟩

def InstructionAccount.readonly_signer (a : Nat) : InstructionAccount :=
  ⟨a, false, true⟩

/-- One issued cross-program invocation: the `InstructionView` contents
plus the account views passed alongside to `invoke_signed`. -/
structure CPICall where
  program_id : Nat
  accounts : List InstructionAccount
  data : List Nat
  account_infos : List AccountView
deriving DecidableEq, Repr

/-- `u64::to_le_bytes`: the 8 little-endian bytes of a u64 value. -/
def leBytes8 (n : Nat) : List Nat :=
  [n % 256, n / 256 % 256, n / 256 ^ 2 % 256, n / 256 ^ 3 % 256,
   n / 256 ^ 4 % 256, n / 256 ^ 5 % 256, n / 256 ^ 6 % 256, n / 256 ^ 7 % 256]

/-- `u32::to_le_bytes`: the 4 little-endian bytes of a u32 value. -/
def leBytes4 (n : Nat) : List Nat :=
  [n % 256, n / 256 % 256, n / 256 ^ 2 % 256, n / 256 ^ 3 % 256]

/-- `bool as u8` in Rust. -/
def boolU8 (b : Bool) : Nat := if b then 1 else 0

/-- Model of `core::ptr::copy_nonoverlapping(bs, buf + off, bs.length)`:
overwrite `buf` starting at offset `off` with the bytes `bs`. -/
def writeBytesAt (buf : List Nat) (off : Nat) (bs : List Nat) : List Nat :=
  buf.take off ++ bs ++ buf.drop (off + bs.length)

/-- An uninitialised (`MaybeUninit`) stack buffer of `n` bytes.  Every
byte that ends up in an issued instruction is overwritten before use, so
the initial content is irrelevant; `0` is a placeholder. -/
def uninitBuf (n : Nat) : List Nat := List.replicate n 0

/-! ## Program ids (distinct naturals standing for distinct addresses) -/

/-- `[0u8; 32]` in `crates/deposit/kamino`. -/
def KAMINO_LEND_PROGRAM_ID : Nat := 0
/-- `[0u8; 32]` in `crates/deposit/jupiter` — the same address as
`KAMINO_LEND_PROGRAM_ID` in the source. -/
def JUPITER_EARN_PROGRAM_ID : Nat := 0
def PERENA_PROGRAM_ID : Nat := 1
def SOLFI_PROGRAM_ID : Nat := 2
def SOLFI_V2_PROGRAM_ID : Nat := 3
def MANIFEST_PROGRAM_ID : Nat := 4
def HEAVEN_PROGRAM_ID : Nat := 5
def ALDRIN_PROGRAM_ID : Nat := 6
def ALDRIN_V2_PROGRAM_ID : Nat := 7
def FUTARCHY_PROGRAM_ID : Nat := 8
def GAMMA_PROGRAM_ID : Nat := 9

/-! ## Kamino deposit (crates/deposit/kamino/src/lib.rs) -/

def REFRESH_RESERVE_DISCRIMINATOR : List Nat := [2, 218, 138, 235, 79, 201, 25, 102]
def REFRESH_OBLIGATION_DISCRIMINATOR : List Nat := [33, 132, 147, 228, 151, 192, 72, 89]
def DEPOSIT_RESERVE_LIQUIDITY_AND_OBLIGATION_COLLATERAL_V2_DISCRIMINATOR : List Nat :=
  [216, 224, 191, 27, 204, 151, 102, 175]

structure KaminoDepositAccounts where
  kamino_lending_program : AccountView
  owner : AccountView
  obligation : AccountView
  lending_market : AccountView
  lending_market_authority : AccountView
  reserve : AccountView
  reserve_liquidity_mint : AccountView
  reserve_liquidity_supply : AccountView
  reserve_collateral_mint : AccountView
  reserve_destination_deposit_collateral : AccountView
  user_source_liquidity : AccountView
  placeholder_user_destination_collateral : AccountView
  collateral_token_program : AccountView
  liquidity_token_program : AccountView
  instruction_sysvar_account : AccountView
  obligation_farm_user_state : AccountView
  reserve_farm_state : AccountView
  farms_program : AccountView
  scope_oracle : AccountView
  reserve_accounts : List AccountView
deriving DecidableEq, Repr

/-- The reserve-tail scan of `KaminoDepositAccounts::try_from`: accept
each remaining account while it is owned by the Kamino lending program
and fewer than 13 have been accepted; stop at the first failure. -/
def kaminoTotalReserveAccounts : List AccountView → Nat → Nat
  | [], n => n
  | r :: rest, n =>
      if r.owned_by KAMINO_LEND_PROGRAM_ID && decide (n < 13) then
        kaminoTotalReserveAccounts rest (n + 1)
      else n

/-- `KaminoDepositAccounts::try_from`: 19 fixed accounts positionally,
then the greedy owner-filtered reserve tail from the remainder. -/
def KaminoDepositAccounts.tryFrom (accounts : List AccountView) :
    Except ProgramError KaminoDepositAccounts :=
  if h : accounts.length < 19 then .error .notEnoughAccountKeys
  else
    let remaining_accounts := accounts.drop 19
    .ok {
      kamino_lending_program := accounts.get ⟨0, by omega⟩
      owner := accounts.get ⟨1, by omega⟩
      obligation := accounts.get ⟨2, by omega⟩
      lending_market := accounts.get ⟨3, by omega⟩
      lending_market_authority := accounts.get ⟨4, by omega⟩
      reserve := accounts.get ⟨5, by omega⟩
      reserve_liquidity_mint := accounts.get ⟨6, by omega⟩
      reserve_liquidity_supply := accounts.get ⟨7, by omega⟩
      reserve_collateral_mint := accounts.get ⟨8, by omega⟩
      reserve_destination_deposit_collateral := accounts.get ⟨9, by omega⟩
      user_source_liquidity := accounts.get ⟨10, by omega⟩
      placeholder_user_destination_collateral := accounts.get ⟨11, by omega⟩
      collateral_token_program := accounts.get ⟨12, by omega⟩
      liquidity_token_program := accounts.get ⟨13, by omega⟩
      instruction_sysvar_account := accounts.get ⟨14, by omega⟩
      obligation_farm_user_state := accounts.get ⟨15, by omega⟩
      reserve_farm_state := accounts.get ⟨16, by omega⟩
      farms_program := accounts.get ⟨17, by omega⟩
      scope_oracle := accounts.get ⟨18, by omega⟩
      reserve_accounts :=
        remaining_accounts.take (kaminoTotalReserveAccounts remaining_accounts 0) }

/-! ## Perena (crates/swap/perena/src/lib.rs) -/

def PERENA_SWAP_DISCRIMINATOR : List Nat := [104, 104, 131, 86, 161, 189, 180, 216]

structure PerenaSwapData where
  in_index : Nat
  out_index : Nat
deriving DecidableEq, Repr

/-- `PerenaSwapData::try_from`: needs at least 2 payload bytes. -/
def PerenaSwapData.tryFrom (data : List Nat) : Except ProgramError PerenaSwapData :=
  if h : data.length < 2 then .error .invalidInstructionData
  else .ok { in_index := data.get ⟨0, by omega⟩, out_index := data.get ⟨1, by omega⟩ }

structure PerenaSwapAccounts where
  perena_program : AccountView
  pool : AccountView
  in_mint : AccountView
  out_mint : AccountView
  in_trader : AccountView
  out_trader : AccountView
  in_vault : AccountView
  out_vault : AccountView
  numeraire_config : AccountView
  payer : AccountView
  token_program : AccountView
  token_2022_program : AccountView
deriving DecidableEq, Repr

def PerenaSwapAccounts.tryFrom (accounts : List AccountView) :
    Except ProgramError PerenaSwapAccounts :=
  if h : accounts.length < 12 then .error .notEnoughAccountKeys
  else .ok {
    perena_program := accounts.get ⟨0, by omega⟩
    pool := accounts.get ⟨1, by omega⟩
    in_mint := accounts.get ⟨2, by omega⟩
    out_mint := accounts.get ⟨3, by omega⟩
    in_trader := accounts.get ⟨4, by omega⟩
    out_trader := accounts.get ⟨5, by omega⟩
    in_vault := accounts.get ⟨6, by omega⟩
    out_vault := accounts.get ⟨7, by omega⟩
    numeraire_config := accounts.get ⟨8, by omega⟩
    payer := accounts.get ⟨9, by omega⟩
    token_program := accounts.get ⟨10, by omega⟩
    token_2022_program := accounts.get ⟨11, by omega⟩ }

/-! ## SolFi (crates/swap/solfi/src/lib.rs) -/

def SOLFI_SWAP_DISCRIMINATOR : Nat := 7

structure SolFiSwapData where
  is_quote_to_base : Bool
deriving DecidableEq, Repr

/-- `SolFiSwapData::try_from`: empty payload fails; flag byte is
`data[0] != 0`. -/
def SolFiSwapData.tryFrom (data : List Nat) : Except ProgramError SolFiSwapData :=
  match data with
  | [] => .error .invalidInstructionData
  | b :: _ => .ok { is_quote_to_base := b != 0 }

structure SolFiSwapAccounts where
  solfi_program : AccountView
  token_transfer_authority : AccountView
  market_account : AccountView
  base_vault : AccountView
  quote_vault : AccountView
  user_base_ata : AccountView
  user_quote_ata : AccountView
  token_program : AccountView
  instructions_sysvar : AccountView
deriving DecidableEq, Repr

def SolFiSwapAccounts.tryFrom (accounts : List AccountView) :
    Except ProgramError SolFiSwapAccounts :=
  if h : accounts.length < 9 then .error .notEnoughAccountKeys
  else .ok {
    solfi_program := accounts.get ⟨0, by omega⟩
    token_transfer_authority := accounts.get ⟨1, by omega⟩
    market_account := accounts.get ⟨2, by omega⟩
    base_vault := accounts.get ⟨3, by omega⟩
    quote_vault := accounts.get ⟨4, by omega⟩
    user_base_ata := accounts.get ⟨5, by omega⟩
    user_quote_ata := accounts.get ⟨6, by omega⟩
    token_program := accounts.get ⟨7, by omega⟩
    instructions_sysvar := accounts.get ⟨8, by omega⟩ }

/-! ## SolFi V2 (crates/swap/solfi-v2/src/lib.rs) -/

def SOLFI_V2_SWAP_DISCRIMINATOR : Nat := 7

structure SolFiV2SwapData where
  is_quote_to_base : Bool
deriving DecidableEq, Repr

def SolFiV2SwapData.tryFrom (data : List Nat) : Except ProgramError SolFiV2SwapData :=
  match data with
  | [] => .error .invalidInstructionData
  | b :: _ => .ok { is_quote_to_base := b != 0 }

structure SolFiV2SwapAccounts where
  solfi_v2_program : AccountView
  token_transfer_authority : AccountView
  market_account : AccountView
  oracle_account : AccountView
  config_account : AccountView
  base_vault : AccountView
  quote_vault : AccountView
  user_base_ata : AccountView
  user_quote_ata : AccountView
  base_mint : AccountView
  quote_mint : AccountView
  base_token_program : AccountView
  quote_token_program : AccountView
  instructions_sysvar : AccountView
deriving DecidableEq, Repr

def SolFiV2SwapAccounts.tryFrom (accounts : List AccountView) :
    Except ProgramError SolFiV2SwapAccounts :=
  if h : accounts.length < 14 then .error .notEnoughAccountKeys
  else .ok {
    solfi_v2_program := accounts.get ⟨0, by omega⟩
    token_transfer_authority := accounts.get ⟨1, by omega⟩
    market_account := accounts.get ⟨2, by omega⟩
    oracle_account := accounts.get ⟨3, by omega⟩
    config_account := accounts.get ⟨4, by omega⟩
    base_vault := accounts.get ⟨5, by omega⟩
    quote_vault := accounts.get ⟨6, by omega⟩
    user_base_ata := accounts.get ⟨7, by omega⟩
    user_quote_ata := accounts.get ⟨8, by omega⟩
    base_mint := accounts.get ⟨9, by omega⟩
    quote_mint := accounts.get ⟨10, by omega⟩
    base_token_program := accounts.get ⟨11, by omega⟩
    quote_token_program := accounts.get ⟨12, by omega⟩
    instructions_sysvar := accounts.get ⟨13, by omega⟩ }

/-! ## Manifest (crates/swap/manifest/src/lib.rs) -/

def MANIFEST_SWAP_DISCRIMINATOR : Nat := 13

structure ManifestSwapData where
  is_base_in : Bool
  is_exact_in : Bool
deriving DecidableEq, Repr

/-- `ManifestSwapData::try_from`: needs at least 2 payload bytes; each
flag is `byte != 0`. -/
def ManifestSwapData.tryFrom (data : List Nat) : Except ProgramError ManifestSwapData :=
  if h : data.length < 2 then .error .invalidInstructionData
  else .ok { is_base_in := data.get ⟨0, by omega⟩ != 0
             is_exact_in := data.get ⟨1, by omega⟩ != 0 }

structure ManifestSwapAccounts where
  manifest_program : AccountView
  payer : AccountView
  owner : AccountView
  market : AccountView
  system_program : AccountView
  trader_base : AccountView
  trader_quote : AccountView
  base_vault : AccountView
  quote_vault : AccountView
  token_program_base : AccountView
  base_mint : AccountView
  token_program_quote : AccountView
  quote_mint : AccountView
  global : AccountView
  global_vault : AccountView
deriving DecidableEq, Repr

def ManifestSwapAccounts.tryFrom (accounts : List AccountView) :
    Except ProgramError ManifestSwapAccounts :=
  if h : accounts.length < 15 then .error .notEnoughAccountKeys
  else .ok {
    manifest_program := accounts.get ⟨0, by omega⟩
    payer := accounts.get ⟨1, by omega⟩
    owner := accounts.get ⟨2, by omega⟩
    market := accounts.get ⟨3, by omega⟩
    system_program := accounts.get ⟨4, by omega⟩
    trader_base := accounts.get ⟨5, by omega⟩
    trader_quote := accounts.get ⟨6, by omega⟩
    base_vault := accounts.get ⟨7, by omega⟩
    quote_vault := accounts.get ⟨8, by omega⟩
    token_program_base := accounts.get ⟨9, by omega⟩
    base_mint := accounts.get ⟨10, by omega⟩
    token_program_quote := accounts.get ⟨11, by omega⟩
    quote_mint := accounts.get ⟨12, by omega⟩
    global := accounts.get ⟨13, by omega⟩
    global_vault := accounts.get ⟨14, by omega⟩ }

/-! ## Heaven (crates/swap/heaven/src/lib.rs) -/

def HEAVEN_BUY_DISCRIMINATOR : List Nat := [102, 6, 61, 18, 1, 218, 235, 234]
def HEAVEN_SELL_DISCRIMINATOR : List Nat := [51, 230, 133, 164, 1, 127, 131, 173]

inductive SwapDirection
  | Buy
  | Sell
deriving DecidableEq, Repr

structure HeavenSwapData where
  direction : SwapDirection
  event : List Nat
deriving DecidableEq, Repr

/-- `HeavenSwapData::try_from`: empty fails; byte 0 selects the
direction (only 0 and 1 are known); the rest is the opaque event span. -/
def HeavenSwapData.tryFrom (data : List Nat) : Except ProgramError HeavenSwapData :=
  match data with
  | [] => .error .invalidInstructionData
  | b :: rest =>
      match b with
      | 0 => .ok { direction := .Buy, event := rest }
      | 1 => .ok { direction := .Sell, event := rest }
      | _ => .error .invalidInstructionData

structure HeavenSwapAccounts where
  heaven_program : AccountView
  token_a_owner : AccountView
  token_b_owner : AccountView
  ata_program : AccountView
  system_program : AccountView
  pool_state : AccountView
  user : AccountView
  token_a_mint : AccountView
  token_b_mint : AccountView
  user_token_a_account : AccountView
  user_token_b_account : AccountView
  pool_token_a_account : AccountView
  pool_token_b_account : AccountView
  protocol_config : AccountView
  ix_sysvar : AccountView
  chainlink_id : AccountView
  chainlink_sol_usd_feed : AccountView
deriving DecidableEq, Repr

def HeavenSwapAccounts.tryFrom (accounts : List AccountView) :
    Except ProgramError HeavenSwapAccounts :=
  if h : accounts.length < 17 then .error .notEnoughAccountKeys
  else .ok {
    heaven_program := accounts.get ⟨0, by omega⟩
    token_a_owner := accounts.get ⟨1, by omega⟩
    token_b_owner := accounts.get ⟨2, by omega⟩
    ata_program := accounts.get ⟨3, by omega⟩
    system_program := accounts.get ⟨4, by omega⟩
    pool_state := accounts.get ⟨5, by omega⟩
    user := accounts.get ⟨6, by omega⟩
    token_a_mint := accounts.get ⟨7, by omega⟩
    token_b_mint := accounts.get ⟨8, by omega⟩
    user_token_a_account := accounts.get ⟨9, by omega⟩
    user_token_b_account := accounts.get ⟨10, by omega⟩
    pool_token_a_account := accounts.get ⟨11, by omega⟩
    pool_token_b_account := accounts.get ⟨12, by omega⟩
    protocol_config := accounts.get ⟨13, by omega⟩
    ix_sysvar := accounts.get ⟨14, by omega⟩
    chainlink_id := accounts.get ⟨15, by omega⟩
    chainlink_sol_usd_feed := accounts.get ⟨16, by omega⟩ }

/-! ## Aldrin (crates/swap/aldrin/src/lib.rs) -/

def ALDRIN_SWAP_DISCRIMINATOR : List Nat := [248, 198, 158, 145, 225, 117, 135, 200]

inductive Side
  | Bid
  | Ask
deriving DecidableEq, Repr

structure AldrinSwapData where
  side : Side
deriving DecidableEq, Repr

def AldrinSwapData.tryFrom (data : List Nat) : Except ProgramError AldrinSwapData :=
  match data with
  | [] => .error .invalidInstructionData
  | b :: _ =>
      match b with
      | 0 => .ok { side := .Bid }
      | 1 => .ok { side := .Ask }
      | _ => .error .invalidInstructionData

structure AldrinSwapAccounts where
  aldrin_program : AccountView
  pool : AccountView
  pool_signer : AccountView
  pool_mint : AccountView
  base_token_vault : AccountView
  quote_token_vault : AccountView
  fee_pool_token_account : AccountView
  wallet_authority : AccountView
  user_base_token_account : AccountView
  user_quote_token_account : AccountView
  token_program : AccountView
deriving DecidableEq, Repr

def AldrinSwapAccounts.tryFrom (accounts : List AccountView) :
    Except ProgramError AldrinSwapAccounts :=
  if h : accounts.length < 11 then .error .notEnoughAccountKeys
  else .ok {
    aldrin_program := accounts.get ⟨0, by omega⟩
    pool := accounts.get ⟨1, by omega⟩
    pool_signer := accounts.get ⟨2, by omega⟩
    pool_mint := accounts.get ⟨3, by omega⟩
    base_token_vault := accounts.get ⟨4, by omega⟩
    quote_token_vault := accounts.get ⟨5, by omega⟩
    fee_pool_token_account := accounts.get ⟨6, by omega⟩
    wallet_authority := accounts.get ⟨7, by omega⟩
    user_base_token_account := accounts.get ⟨8, by omega⟩
    user_quote_token_account := accounts.get ⟨9, by omega⟩
    token_program := accounts.get ⟨10, by omega⟩ }

/-! ## Aldrin V2 (src/programs/swap/aldrin_v2/mod.rs).  The source
duplicates the `Side` enum of Aldrin verbatim; the shared `Side` type
above stands for both. -/

def ALDRIN_V2_SWAP_DISCRIMINATOR : List Nat := [248, 198, 158, 145, 225, 117, 135, 200]

structure AldrinV2SwapData where
  side : Side
deriving DecidableEq, Repr

def AldrinV2SwapData.tryFrom (data : List Nat) : Except ProgramError AldrinV2SwapData :=
  match data with
  | [] => .error .invalidInstructionData
  | b :: _ =>
      match b with
      | 0 => .ok { side := .Bid }
      | 1 => .ok { side := .Ask }
      | _ => .error .invalidInstructionData

structure AldrinV2SwapAccounts where
  aldrin_v2_program : AccountView
  pool : AccountView
  pool_signer : AccountView
  pool_mint : AccountView
  base_token_vault : AccountView
  quote_token_vault : AccountView
  fee_pool_token_account : AccountView
  wallet_authority : AccountView
  user_base_token_account : AccountView
  user_quote_token_account : AccountView
  curve : AccountView
  token_program : AccountView
deriving DecidableEq, Repr

def AldrinV2SwapAccounts.tryFrom (accounts : List AccountView) :
    Except ProgramError AldrinV2SwapAccounts :=
  if h : accounts.length < 12 then .error .notEnoughAccountKeys
  else .ok {
    aldrin_v2_program := accounts.get ⟨0, by omega⟩
    pool := accounts.get ⟨1, by omega⟩
    pool_signer := accounts.get ⟨2, by omega⟩
    pool_mint := accounts.get ⟨3, by omega⟩
    base_token_vault := accounts.get ⟨4, by omega⟩
    quote_token_vault := accounts.get ⟨5, by omega⟩
    fee_pool_token_account := accounts.get ⟨6, by omega⟩
    wallet_authority := accounts.get ⟨7, by omega⟩
    user_base_token_account := accounts.get ⟨8, by omega⟩
    user_quote_token_account := accounts.get ⟨9, by omega⟩
    curve := accounts.get ⟨10, by omega⟩
    token_program := accounts.get ⟨11, by omega⟩ }

/-! ## Futarchy (src/programs/swap/futarchy/mod.rs) -/

def FUTARCHY_SWAP_DISCRIMINATOR : List Nat := [248, 198, 158, 145, 225, 117, 135, 200]

inductive SwapType
  | Buy
  | Sell
deriving DecidableEq, Repr

structure FutarchySwapData where
  swap_type : SwapType
deriving DecidableEq, Repr

def FutarchySwapData.tryFrom (data : List Nat) : Except ProgramError FutarchySwapData :=
  match data with
  | [] => .error .invalidInstructionData
  | b :: _ =>
      match b with
      | 0 => .ok { swap_type := .Buy }
      | 1 => .ok { swap_type := .Sell }
      | _ => .error .invalidInstructionData

structure FutarchySwapAccounts where
  futarchy_program : AccountView
  dao : AccountView
  user_base_account : AccountView
  user_quote_account : AccountView
  amm_base_vault : AccountView
  amm_quote_vault : AccountView
  user : AccountView
  token_program : AccountView
  event_authority : AccountView
  program : AccountView
deriving DecidableEq, Repr

def FutarchySwapAccounts.tryFrom (accounts : List AccountView) :
    Except ProgramError FutarchySwapAccounts :=
  if h : accounts.length < 10 then .error .notEnoughAccountKeys
  else .ok {
    futarchy_program := accounts.get ⟨0, by omega⟩
    dao := accounts.get ⟨1, by omega⟩
    user_base_account := accounts.get ⟨2, by omega⟩
    user_quote_account := accounts.get ⟨3, by omega⟩
    amm_base_vault := accounts.get ⟨4, by omega⟩
    amm_quote_vault := accounts.get ⟨5, by omega⟩
    user := accounts.get ⟨6, by omega⟩
    token_program := accounts.get ⟨7, by omega⟩
    event_authority := accounts.get ⟨8, by omega⟩
    program := accounts.get ⟨9, by omega⟩ }

/-! ## Gamma (crates/swap/gamma/src/lib.rs); its payload type is `()`. -/

def GAMMA_SWAP_DISCRIMINATOR : List Nat := [239, 82, 192, 187, 160, 26, 223, 223]

structure GammaSwapAccounts where
  gamma_program : AccountView
  payer : AccountView
  authority : AccountView
  amm_config : AccountView
  pool_state : AccountView
  input_token_account : AccountView
  output_token_account : AccountView
  input_vault : AccountView
  output_vault : AccountView
  input_token_program : AccountView
  output_token_program : AccountView
  input_token_mint : AccountView
  output_token_mint : AccountView
  observation_state : AccountView
deriving DecidableEq, Repr

def GammaSwapAccounts.tryFrom (accounts : List AccountView) :
    Except ProgramError GammaSwapAccounts :=
  if h : accounts.length < 14 then .error .notEnoughAccountKeys
  else .ok {
    gamma_program := accounts.get ⟨0, by omega⟩
    payer := accounts.get ⟨1, by omega⟩
    authority := accounts.get ⟨2, by omega⟩
    amm_config := accounts.get ⟨3, by omega⟩
    pool_state := accounts.get ⟨4, by omega⟩
    input_token_account := accounts.get ⟨5, by omega⟩
    output_token_account := accounts.get ⟨6, by omega⟩
    input_vault := accounts.get ⟨7, by omega⟩
    output_vault := accounts.get ⟨8, by omega⟩
    input_token_program := accounts.get ⟨9, by omega⟩
    output_token_program := accounts.get ⟨10, by omega⟩
    input_token_mint := accounts.get ⟨11, by omega⟩
    output_token_mint := accounts.get ⟨12, by omega⟩
    observation_state := accounts.get ⟨13, by omega⟩ }

/-! ## Jupiter Earn deposit (crates/deposit/jupiter/src/lib.rs) -/

structure JupiterEarnDepositAccounts where
  lending_program : AccountView
  signer : AccountView
  depositor_token_account : AccountView
  recipient_token_account : AccountView
  mint : AccountView
  lending_admin : AccountView
  lending : AccountView
  f_token_mint : AccountView
  supply_token_reserves_liquidity : AccountView
  lending_supply_position_on_liquidity : AccountView
  rate_model : AccountView
  vault : AccountView
  liquidity : AccountView
  liquidity_program : AccountView
  rewards_rate_model : AccountView
  token_program : AccountView
  associated_token_program : AccountView
  system_program : AccountView
deriving DecidableEq, Repr

def JupiterEarnDepositAccounts.tryFrom (accounts : List AccountView) :
    Except ProgramError JupiterEarnDepositAccounts :=
  if h : accounts.length < 18 then .error .notEnoughAccountKeys
  else .ok {
    lending_program := accounts.get ⟨0, by omega⟩
    signer := accounts.get ⟨1, by omega⟩
    depositor_token_account := accounts.get ⟨2, by omega⟩
    recipient_token_account := accounts.get ⟨3, by omega⟩
    mint := accounts.get ⟨4, by omega⟩
    lending_admin := accounts.get ⟨5, by omega⟩
    lending := accounts.get ⟨6, by omega⟩
    f_token_mint := accounts.get ⟨7, by omega⟩
    supply_token_reserves_liquidity := accounts.get ⟨8, by omega⟩
    lending_supply_position_on_liquidity := accounts.get ⟨9, by omega⟩
    rate_model := accounts.get ⟨10, by omega⟩
    vault := accounts.get ⟨11, by omega⟩
    liquidity := accounts.get ⟨12, by omega⟩
    liquidity_program := accounts.get ⟨13, by omega⟩
    rewards_rate_model := accounts.get ⟨14, by omega⟩
    token_program := accounts.get ⟨15, by omega⟩
    associated_token_program := accounts.get ⟨16, by omega⟩
    system_program := accounts.get ⟨17, by omega⟩ }

/-! ## Instruction-byte encoders.  Each mirrors the `MaybeUninit` buffer
and the sequence of pointer writes of the corresponding `swap_signed` /
`deposit_signed`, as a chain of `writeBytesAt` at the source offsets. -/

/-- Perena `swap_signed` byte buffer (26 bytes): discriminator at 0,
`in_index` at 8, `out_index` at 9, amounts at 10 and 18. -/
def perenaSwapIxData (in_amount minimum_out_amount : Nat) (data : PerenaSwapData) : List Nat :=
  writeBytesAt (writeBytesAt (writeBytesAt (writeBytesAt (writeBytesAt
    (uninitBuf 26) 0 PERENA_SWAP_DISCRIMINATOR)
    8 [data.in_index]) 9 [data.out_index])
    10 (leBytes8 in_amount)) 18 (leBytes8 minimum_out_amount)

/-- SolFi `swap_signed` byte buffer (18 bytes): selector at 0, amounts
at 1 and 9, flag at 17. -/
def solfiSwapIxData (in_amount minimum_out_amount : Nat) (data : SolFiSwapData) : List Nat :=
  writeBytesAt (writeBytesAt (writeBytesAt (writeBytesAt
    (uninitBuf 18) 0 [SOLFI_SWAP_DISCRIMINATOR])
    1 (leBytes8 in_amount)) 9 (leBytes8 minimum_out_amount))
    17 [boolU8 data.is_quote_to_base]

/-- SolFi V2 `swap_signed` byte buffer (18 bytes), same shape as SolFi. -/
def solfiV2SwapIxData (in_amount minimum_out_amount : Nat) (data : SolFiV2SwapData) : List Nat :=
  writeBytesAt (writeBytesAt (writeBytesAt (writeBytesAt
    (uninitBuf 18) 0 [SOLFI_V2_SWAP_DISCRIMINATOR])
    1 (leBytes8 in_amount)) 9 (leBytes8 minimum_out_amount))
    17 [boolU8 data.is_quote_to_base]

/-- Manifest `swap_signed` byte buffer (19 bytes): selector at 0,
amounts at 1 and 9, the two flags at 17 and 18. -/
def manifestSwapIxData (in_amount minimum_out_amount : Nat) (data : ManifestSwapData) : List Nat :=
  writeBytesAt (writeBytesAt (writeBytesAt (writeBytesAt (writeBytesAt
    (uninitBuf 19) 0 [MANIFEST_SWAP_DISCRIMINATOR])
    1 (leBytes8 in_amount)) 9 (leBytes8 minimum_out_amount))
    17 [boolU8 data.is_base_in]) 18 [boolU8 data.is_exact_in]

/-- Aldrin `swap_signed` byte buffer (25 bytes): discriminator at 0,
amounts at 8 and 16, side byte at 24. -/
def aldrinSwapIxData (in_amount minimum_out_amount : Nat) (data : AldrinSwapData) : List Nat :=
  writeBytesAt (writeBytesAt (writeBytesAt (writeBytesAt
    (uninitBuf 25) 0 ALDRIN_SWAP_DISCRIMINATOR)
    8 (leBytes8 in_amount)) 16 (leBytes8 minimum_out_amount))
    24 [match data.side with | .Bid => 0 | .Ask => 1]

/-- Aldrin V2 `swap_signed` byte buffer (25 bytes), same shape. -/
def aldrinV2SwapIxData (in_amount minimum_out_amount : Nat) (data : AldrinV2SwapData) : List Nat :=
  writeBytesAt (writeBytesAt (writeBytesAt (writeBytesAt
    (uninitBuf 25) 0 ALDRIN_V2_SWAP_DISCRIMINATOR)
    8 (leBytes8 in_amount)) 16 (leBytes8 minimum_out_amount))
    24 [match data.side with | .Bid => 0 | .Ask => 1]

/-- Futarchy `swap_signed` byte buffer (25 bytes): discriminator at 0,
`in_amount` at 8, the swap-type byte at 16, `minimum_out_amount` at 17. -/
def futarchySwapIxData (in_amount minimum_out_amount : Nat) (data : FutarchySwapData) : List Nat :=
  writeBytesAt (writeBytesAt (writeBytesAt (writeBytesAt
    (uninitBuf 25) 0 FUTARCHY_SWAP_DISCRIMINATOR)
    8 (leBytes8 in_amount))
    16 [match data.swap_type with | .Buy => 0 | .Sell => 1])
    17 (leBytes8 minimum_out_amount)

/-- Gamma `swap_signed` byte buffer (24 bytes): discriminator at 0,
amounts at 8 and 16. -/
def gammaSwapIxData (in_amount minimum_out_amount : Nat) : List Nat :=
  writeBytesAt (writeBytesAt (writeBytesAt
    (uninitBuf 24) 0 GAMMA_SWAP_DISCRIMINATOR)
    8 (leBytes8 in_amount)) 16 (leBytes8 minimum_out_amount)

/-- Heaven discriminator choice by direction. -/
def heavenDiscriminator : SwapDirection → List Nat
  | .Buy => HEAVEN_BUY_DISCRIMINATOR
  | .Sell => HEAVEN_SELL_DISCRIMINATOR

/-- Heaven `swap_signed` byte buffer for an empty event (28 bytes):
discriminator at 0, amounts at 8 and 16, a zero u32 length at 24. -/
def heavenSwapIxDataEmpty (in_amount minimum_out_amount : Nat) (direction : SwapDirection) :
    List Nat :=
  writeBytesAt (writeBytesAt (writeBytesAt (writeBytesAt
    (uninitBuf 28) 0 (heavenDiscriminator direction))
    8 (leBytes8 in_amount)) 16 (leBytes8 minimum_out_amount))
    24 (leBytes4 0)

/-- Heaven `swap_signed` byte buffer for a non-empty event: a 284-byte
(`28 + MAX_EVENT_LEN`) stack buffer with discriminator at 0, amounts at
8 and 16, the u32 event length at 24 and the event bytes at 28; only the
first `28 + event_len` bytes are passed to the invocation. -/
def heavenSwapIxDataEvent (in_amount minimum_out_amount : Nat) (direction : SwapDirection)
    (event : List Nat) : List Nat :=
  (writeBytesAt (writeBytesAt (writeBytesAt (writeBytesAt (writeBytesAt
    (uninitBuf (28 + 256)) 0 (heavenDiscriminator direction))
    8 (leBytes8 in_amount)) 16 (leBytes8 minimum_out_amount))
    24 (leBytes4 event.length)) 28 event).take (28 + event.length)

/-- Kamino deposit instruction bytes (16 bytes): discriminator at 0,
amount at 8. -/
def kaminoDepositIxData (amount : Nat) : List Nat :=
  writeBytesAt (writeBytesAt (uninitBuf 16)
    0 DEPOSIT_RESERVE_LIQUIDITY_AND_OBLIGATION_COLLATERAL_V2_DISCRIMINATOR)
    8 (leBytes8 amount)

/-! ## Per-protocol `swap_signed`: each assembles one `CPICall`.
An `.ok calls` result means exactly those invocations are issued (their
external outcome is outside the adapter); an `.error e` result means the
adapter returned `e` before invoking anything. -/

def Perena.swap_signed (ctx : PerenaSwapAccounts) (in_amount minimum_out_amount : Nat)
    (data : PerenaSwapData) : Except ProgramError (List CPICall) :=
  .ok [{ program_id := PERENA_PROGRAM_ID
         accounts := [
           .writable ctx.pool.address,
           .writable ctx.in_mint.address,
           .writable ctx.out_mint.address,
           .writable ctx.in_trader.address,
           .writable ctx.out_trader.address,
           .writable ctx.in_vault.address,
           .writable ctx.out_vault.address,
           .readonly ctx.numeraire_config.address,
           .writable_signer ctx.payer.address,
           .readonly ctx.token_program.address,
           .readonly ctx.token_2022_program.address]
         data := perenaSwapIxData in_amount minimum_out_amount data
         account_infos := [ctx.pool, ctx.in_mint, ctx.out_mint, ctx.in_trader,
           ctx.out_trader, ctx.in_vault, ctx.out_vault, ctx.numeraire_config,
           ctx.payer, ctx.token_program, ctx.token_2022_program] }]

def SolFi.swap_signed (ctx : SolFiSwapAccounts) (in_amount minimum_out_amount : Nat)
    (data : SolFiSwapData) : Except ProgramError (List CPICall) :=
  .ok [{ program_id := SOLFI_PROGRAM_ID
         accounts := [
           .writable_signer ctx.token_transfer_authority.address,
           .writable ctx.market_account.address,
           .writable ctx.base_vault.address,
           .writable ctx.quote_vault.address,
           .writable ctx.user_base_ata.address,
           .writable ctx.user_quote_ata.address,
           .readonly ctx.token_program.address,
           .readonly ctx.instructions_sysvar.address]
         data := solfiSwapIxData in_amount minimum_out_amount data
         account_infos := [ctx.token_transfer_authority, ctx.market_account,
           ctx.base_vault, ctx.quote_vault, ctx.user_base_ata, ctx.user_quote_ata,
           ctx.token_program, ctx.instructions_sysvar] }]

def SolFiV2.swap_signed (ctx : SolFiV2SwapAccounts) (in_amount minimum_out_amount : Nat)
    (data : SolFiV2SwapData) : Except ProgramError (List CPICall) :=
  .ok [{ program_id := SOLFI_V2_PROGRAM_ID
         accounts := [
           .writable_signer ctx.token_transfer_authority.address,
           .writable ctx.market_account.address,
           .readonly ctx.oracle_account.address,
           .readonly ctx.config_account.address,
           .writable ctx.base_vault.address,
           .writable ctx.quote_vault.address,
           .writable ctx.user_base_ata.address,
           .writable ctx.user_quote_ata.address,
           .readonly ctx.base_mint.address,
           .readonly ctx.quote_mint.address,
           .readonly ctx.base_token_program.address,
           .readonly ctx.quote_token_program.address,
           .readonly ctx.instructions_sysvar.address]
         data := solfiV2SwapIxData in_amount minimum_out_amount data
         account_infos := [ctx.token_transfer_authority, ctx.market_account,
           ctx.oracle_account, ctx.config_account, ctx.base_vault, ctx.quote_vault,
           ctx.user_base_ata, ctx.user_quote_ata, ctx.base_mint, ctx.quote_mint,
           ctx.base_token_program, ctx.quote_token_program, ctx.instructions_sysvar] }]

def Manifest.swap_signed (ctx : ManifestSwapAccounts) (in_amount minimum_out_amount : Nat)
    (data : ManifestSwapData) : Except ProgramError (List CPICall) :=
  .ok [{ program_id := MANIFEST_PROGRAM_ID
         accounts := [
           .writable_signer ctx.payer.address,
           .readonly_signer ctx.owner.address,
           .writable ctx.market.address,
           .readonly ctx.system_program.address,
           .writable ctx.trader_base.address,
           .writable ctx.trader_quote.address,
           .writable ctx.base_vault.address,
           .writable ctx.quote_vault.address,
           .readonly ctx.token_program_base.address,
           .readonly ctx.base_mint.address,
           .readonly ctx.token_program_quote.address,
           .readonly ctx.quote_mint.address,
           .writable ctx.global.address,
           .writable ctx.global_vault.address]
         data := manifestSwapIxData in_amount minimum_out_amount data
         account_infos := [ctx.payer, ctx.owner, ctx.market, ctx.system_program,
           ctx.trader_base, ctx.trader_quote, ctx.base_vault, ctx.quote_vault,
           ctx.token_program_base, ctx.base_mint, ctx.token_program_quote,
           ctx.quote_mint, ctx.global, ctx.global_vault] }]

/-- Shared metadata list of Heaven's single CPI. -/
def heavenSwapIxAccounts (ctx : HeavenSwapAccounts) : List InstructionAccount :=
  [.readonly ctx.token_a_owner.address,
   .readonly ctx.token_b_owner.address,
   .readonly ctx.ata_program.address,
   .readonly ctx.system_program.address,
   .writable ctx.pool_state.address,
   .readonly_signer ctx.user.address,
   .readonly ctx.token_a_mint.address,
   .readonly ctx.token_b_mint.address,
   .writable ctx.user_token_a_account.address,
   .writable ctx.user_token_b_account.address,
   .writable ctx.pool_token_a_account.address,
   .writable ctx.pool_token_b_account.address,
   .writable ctx.protocol_config.address,
   .readonly ctx.ix_sysvar.address,
   .readonly ctx.chainlink_id.address,
   .readonly ctx.chainlink_sol_usd_feed.address]

def heavenSwapIxInfos (ctx : HeavenSwapAccounts) : List AccountView :=
  [ctx.token_a_owner, ctx.token_b_owner, ctx.ata_program, ctx.system_program,
   ctx.pool_state, ctx.user, ctx.token_a_mint, ctx.token_b_mint,
   ctx.user_token_a_account, ctx.user_token_b_account, ctx.pool_token_a_account,
   ctx.pool_token_b_account, ctx.protocol_config, ctx.ix_sysvar,
   ctx.chainlink_id, ctx.chainlink_sol_usd_feed]

/-- Heaven `swap_signed`: an empty event yields the fixed 28-byte
buffer; an event longer than 256 bytes is rejected before any
invocation; otherwise one CPI carries the `28 + event_len`-byte slice. -/
def Heaven.swap_signed (ctx : HeavenSwapAccounts) (in_amount minimum_out_amount : Nat)
    (data : HeavenSwapData) : Except ProgramError (List CPICall) :=
  if data.event.length = 0 then
    .ok [{ program_id := HEAVEN_PROGRAM_ID
           accounts := heavenSwapIxAccounts ctx
           data := heavenSwapIxDataEmpty in_amount minimum_out_amount data.direction
           account_infos := heavenSwapIxInfos ctx }]
  else if data.event.length > 256 then .error .invalidInstructionData
  else
    .ok [{ program_id := HEAVEN_PROGRAM_ID
           accounts := heavenSwapIxAccounts ctx
           data := heavenSwapIxDataEvent in_amount minimum_out_amount data.direction data.event
           account_infos := heavenSwapIxInfos ctx }]

def Aldrin.swap_signed (ctx : AldrinSwapAccounts) (in_amount minimum_out_amount : Nat)
    (data : AldrinSwapData) : Except ProgramError (List CPICall) :=
  .ok [{ program_id := ALDRIN_PROGRAM_ID
         accounts := [
           .readonly ctx.pool.address,
           .readonly ctx.pool_signer.address,
           .writable ctx.pool_mint.address,
           .writable ctx.base_token_vault.address,
           .writable ctx.quote_token_vault.address,
           .writable ctx.fee_pool_token_account.address,
           .readonly_signer ctx.wallet_authority.address,
           .writable ctx.user_base_token_account.address,
           .writable ctx.user_quote_token_account.address,
           .readonly ctx.token_program.address]
         data := aldrinSwapIxData in_amount minimum_out_amount data
         account_infos := [ctx.pool, ctx.pool_signer, ctx.pool_mint,
           ctx.base_token_vault, ctx.quote_token_vault, ctx.fee_pool_token_account,
           ctx.wallet_authority, ctx.user_base_token_account,
           ctx.user_quote_token_account, ctx.token_program] }]

def AldrinV2.swap_signed (ctx : AldrinV2SwapAccounts) (in_amount minimum_out_amount : Nat)
    (data : AldrinV2SwapData) : Except ProgramError (List CPICall) :=
  .ok [{ program_id := ALDRIN_V2_PROGRAM_ID
         accounts := [
           .readonly ctx.pool.address,
           .readonly ctx.pool_signer.address,
           .writable ctx.pool_mint.address,
           .writable ctx.base_token_vault.address,
           .writable ctx.quote_token_vault.address,
           .writable ctx.fee_pool_token_account.address,
           .readonly_signer ctx.wallet_authority.address,
           .writable ctx.user_base_token_account.address,
           .writable ctx.user_quote_token_account.address,
           .readonly ctx.curve.address,
           .readonly ctx.token_program.address]
         data := aldrinV2SwapIxData in_amount minimum_out_amount data
         account_infos := [ctx.pool, ctx.pool_signer, ctx.pool_mint,
           ctx.base_token_vault, ctx.quote_token_vault, ctx.fee_pool_token_account,
           ctx.wallet_authority, ctx.user_base_token_account,
           ctx.user_quote_token_account, ctx.curve, ctx.token_program] }]

def Futarchy.swap_signed (ctx : FutarchySwapAccounts) (in_amount minimum_out_amount : Nat)
    (data : FutarchySwapData) : Except ProgramError (List CPICall) :=
  .ok [{ program_id := FUTARCHY_PROGRAM_ID
         accounts := [
           .writable ctx.dao.address,
           .writable ctx.user_base_account.address,
           .writable ctx.user_quote_account.address,
           .writable ctx.amm_base_vault.address,
           .writable ctx.amm_quote_vault.address,
           .readonly_signer ctx.user.address,
           .readonly ctx.token_program.address,
           .readonly ctx.event_authority.address,
           .readonly ctx.program.address]
         data := futarchySwapIxData in_amount minimum_out_amount data
         account_infos := [ctx.dao, ctx.user_base_account, ctx.user_quote_account,
           ctx.amm_base_vault, ctx.amm_quote_vault, ctx.user, ctx.token_program,
           ctx.event_authority, ctx.program] }]

def Gamma.swap_signed (ctx : GammaSwapAccounts) (in_amount minimum_out_amount : Nat)
    (_data : Unit) : Except ProgramError (List CPICall) :=
  .ok [{ program_id := GAMMA_PROGRAM_ID
         accounts := [
           .readonly_signer ctx.payer.address,
           .readonly ctx.authority.address,
           .readonly ctx.amm_config.address,
           .writable ctx.pool_state.address,
           .writable ctx.input_token_account.address,
           .writable ctx.output_token_account.address,
           .writable ctx.input_vault.address,
           .writable ctx.output_vault.address,
           .readonly ctx.input_token_program.address,
           .readonly ctx.output_token_program.address,
           .readonly ctx.input_token_mint.address,
           .readonly ctx.output_token_mint.address,
           .writable ctx.observation_state.address]
         data := gammaSwapIxData in_amount minimum_out_amount
         account_infos := [ctx.payer, ctx.authority, ctx.amm_config, ctx.pool_state,
           ctx.input_token_account, ctx.output_token_account, ctx.input_vault,
           ctx.output_vault, ctx.input_token_program, ctx.output_token_program,
           ctx.input_token_mint, ctx.output_token_mint, ctx.observation_state] }]

/-! ## Kamino `deposit_signed`: the four-phase CPI sequence. -/

/-- First CPI: refresh the target reserve.  The three lending-program
metadata entries are the placeholder duplicates of the source. -/
def kaminoTargetRefreshIx (ctx : KaminoDepositAccounts) : CPICall :=
  { program_id := KAMINO_LEND_PROGRAM_ID
    accounts := [
      .writable ctx.reserve.address,
      .readonly ctx.kamino_lending_program.address,
      .readonly ctx.kamino_lending_program.address,
      .readonly ctx.kamino_lending_program.address,
      .readonly ctx.scope_oracle.address]
    data := REFRESH_RESERVE_DISCRIMINATOR
    account_infos := [ctx.reserve, ctx.kamino_lending_program,
      ctx.kamino_lending_program, ctx.kamino_lending_program, ctx.scope_oracle] }

/-- Loop body of the tail-reserve refresh: the metadata names the tail
reserve `r` as the writable first entry, while the account-view array is
rebuilt each iteration with `ctx.reserve` (the target reserve) in the
first slot, exactly as in the source. -/
def kaminoTailRefreshIx (ctx : KaminoDepositAccounts) (r : AccountView) : CPICall :=
  { program_id := KAMINO_LEND_PROGRAM_ID
    accounts := [
      .writable r.address,
      .readonly ctx.kamino_lending_program.address,
      .readonly ctx.kamino_lending_program.address,
      .readonly ctx.kamino_lending_program.address,
      .readonly ctx.scope_oracle.address]
    data := REFRESH_RESERVE_DISCRIMINATOR
    account_infos := [ctx.reserve, ctx.kamino_lending_program,
      ctx.kamino_lending_program, ctx.kamino_lending_program, ctx.scope_oracle] }

/-- Obligation-refresh CPI: metadata is obligation (writable), lending
market (readonly), then each accepted tail reserve readonly; the
account-view array is the fixed 15-slot array whose unused slots keep
the `ctx.obligation` fill value. -/
def kaminoObligationRefreshIx (ctx : KaminoDepositAccounts) : CPICall :=
  { program_id := KAMINO_LEND_PROGRAM_ID
    accounts :=
      .writable ctx.obligation.address :: .readonly ctx.lending_market.address ::
        ctx.reserve_accounts.map (fun r => .readonly r.address)
    data := REFRESH_OBLIGATION_DISCRIMINATOR
    account_infos :=
      (ctx.obligation :: ctx.lending_market :: ctx.reserve_accounts) ++
        List.replicate (15 - (2 + ctx.reserve_accounts.length)) ctx.obligation }

/-- Final deposit CPI. -/
def kaminoDepositIx (ctx : KaminoDepositAccounts) (amount : Nat) : CPICall :=
  { program_id := KAMINO_LEND_PROGRAM_ID
    accounts := [
      .writable_signer ctx.owner.address,
      .writable ctx.obligation.address,
      .readonly ctx.lending_market.address,
      .readonly ctx.lending_market_authority.address,
      .writable ctx.reserve.address,
      .readonly ctx.reserve_liquidity_mint.address,
      .writable ctx.reserve_liquidity_supply.address,
      .writable ctx.reserve_collateral_mint.address,
      .writable ctx.reserve_destination_deposit_collateral.address,
      .writable ctx.user_source_liquidity.address,
      .readonly ctx.placeholder_user_destination_collateral.address,
      .readonly ctx.collateral_token_program.address,
      .readonly ctx.liquidity_token_program.address,
      .readonly ctx.instruction_sysvar_account.address,
      .writable ctx.obligation_farm_user_state.address,
      .writable ctx.reserve_farm_state.address,
      .readonly ctx.farms_program.address]
    data := kaminoDepositIxData amount
    account_infos := [ctx.owner, ctx.obligation, ctx.lending_market,
      ctx.lending_market_authority, ctx.reserve, ctx.reserve_liquidity_mint,
      ctx.reserve_liquidity_supply, ctx.reserve_collateral_mint,
      ctx.reserve_destination_deposit_collateral, ctx.user_source_liquidity,
      ctx.placeholder_user_destination_collateral, ctx.collateral_token_program,
      ctx.liquidity_token_program, ctx.instruction_sysvar_account,
      ctx.obligation_farm_user_state, ctx.reserve_farm_state, ctx.farms_program] }

/-- The full ordered CPI sequence of `Kamino::deposit_signed`: target
refresh, one refresh per accepted tail reserve, obligation refresh,
deposit. -/
def kaminoDepositCPIs (ctx : KaminoDepositAccounts) (amount : Nat) : List CPICall :=
  kaminoTargetRefreshIx ctx ::
    (ctx.reserve_accounts.map (kaminoTailRefreshIx ctx) ++
      [kaminoObligationRefreshIx ctx, kaminoDepositIx ctx amount])

/-- Issue a list of CPIs in order against an external environment `env`
mapping the call index to an optional failure; `invoke_signed(..)?`
aborts the sequence at the first failing call.  Returns the calls
actually issued (the failing call included) and the final outcome
(`none` = success). -/
def execCPIs (env : Nat → Option ProgramError) : Nat → List CPICall →
    List CPICall × Option ProgramError
  | _, [] => ([], none)
  | k, ix :: rest =>
      match env k with
      | some e => ([ix], some e)
      | none =>
          let r := execCPIs env (k + 1) rest
          (ix :: r.1, r.2)

/-- `Kamino::deposit_signed` under external environment `env`. -/
def Kamino.deposit_signed (env : Nat → Option ProgramError)
    (ctx : KaminoDepositAccounts) (amount : Nat) :
    List CPICall × Option ProgramError :=
  execCPIs env 0 (kaminoDepositCPIs ctx amount)

/-! ## Dispatch layer (src/context.rs) -/

inductive SwapContext
  | Perena (ctx : PerenaSwapAccounts)
  | SolFi (ctx : SolFiSwapAccounts)
  | SolFiV2 (ctx : SolFiV2SwapAccounts)
  | Manifest (ctx : ManifestSwapAccounts)
  | Heaven (ctx : HeavenSwapAccounts)
  | Aldrin (ctx : AldrinSwapAccounts)
  | AldrinV2 (ctx : AldrinV2SwapAccounts)
  | Futarchy (ctx : FutarchySwapAccounts)
  | Gamma (ctx : GammaSwapAccounts)
deriving DecidableEq, Repr

inductive SwapData
  | Perena (d : PerenaSwapData)
  | SolFi (d : SolFiSwapData)
  | SolFiV2 (d : SolFiV2SwapData)
  | Manifest (d : ManifestSwapData)
  | Heaven (d : HeavenSwapData)
  | Aldrin (d : AldrinSwapData)
  | AldrinV2 (d : AldrinV2SwapData)
  | Futarchy (d : FutarchySwapData)
  | Gamma (d : Unit)
deriving DecidableEq, Repr

/-- Protocol tag of an account-context variant. -/
def SwapContext.tag : SwapContext → Nat
  | .Perena _ => 0
  | .SolFi _ => 1
  | .SolFiV2 _ => 2
  | .Manifest _ => 3
  | .Heaven _ => 4
  | .Aldrin _ => 5
  | .AldrinV2 _ => 6
  | .Futarchy _ => 7
  | .Gamma _ => 8

/-- Protocol tag of a payload variant. -/
def SwapData.tag : SwapData → Nat
  | .Perena _ => 0
  | .SolFi _ => 1
  | .SolFiV2 _ => 2
  | .Manifest _ => 3
  | .Heaven _ => 4
  | .Aldrin _ => 5
  | .AldrinV2 _ => 6
  | .Futarchy _ => 7
  | .Gamma _ => 8

/-- `SwapContext::try_from_swap_data`: dispatch on the active variant. -/
def SwapContext.try_from_swap_data (ctx : SwapContext) (data : List Nat) :
    Except ProgramError SwapData :=
  match ctx with
  | .Perena _ => (PerenaSwapData.tryFrom data).map .Perena
  | .SolFi _ => (SolFiSwapData.tryFrom data).map .SolFi
  | .SolFiV2 _ => (SolFiV2SwapData.tryFrom data).map .SolFiV2
  | .Manifest _ => (ManifestSwapData.tryFrom data).map .Manifest
  | .Heaven _ => (HeavenSwapData.tryFrom data).map .Heaven
  | .Aldrin _ => (AldrinSwapData.tryFrom data).map .Aldrin
  | .AldrinV2 _ => (AldrinV2SwapData.tryFrom data).map .AldrinV2
  | .Futarchy _ => (FutarchySwapData.tryFrom data).map .Futarchy
  | .Gamma _ => .ok (.Gamma ())

/-- `<SwapContext as Swap>::swap_signed`: matching variants dispatch to
the protocol; any mismatched pair is `InvalidAccountData`. -/
def SwapContext.swap_signed (ctx : SwapContext) (in_amount minimum_out_amount : Nat)
    (data : SwapData) : Except ProgramError (List CPICall) :=
  match ctx, data with
  | .Perena a, .Perena d => Perena.swap_signed a in_amount minimum_out_amount d
  | .SolFi a, .SolFi d => SolFi.swap_signed a in_amount minimum_out_amount d
  | .SolFiV2 a, .SolFiV2 d => SolFiV2.swap_signed a in_amount minimum_out_amount d
  | .Manifest a, .Manifest d => Manifest.swap_signed a in_amount minimum_out_amount d
  | .Heaven a, .Heaven d => Heaven.swap_signed a in_amount minimum_out_amount d
  | .Aldrin a, .Aldrin d => Aldrin.swap_signed a in_amount minimum_out_amount d
  | .AldrinV2 a, .AldrinV2 d => AldrinV2.swap_signed a in_amount minimum_out_amount d
  | .Futarchy a, .Futarchy d => Futarchy.swap_signed a in_amount minimum_out_amount d
  | .Gamma a, .Gamma d => Gamma.swap_signed a in_amount minimum_out_amount d
  | _, _ => .error .invalidAccountData

/-- `try_from_swap_context`: empty slice fails; otherwise compare
account 0's address against each compiled-in protocol in priority order,
running the first match's account parser; no match is
`InvalidAccountData`. -/
def try_from_swap_context (accounts : List AccountView) :
    Except ProgramError SwapContext :=
  match accounts with
  | [] => .error .notEnoughAccountKeys
  | detector :: _ =>
      if detector.address = PERENA_PROGRAM_ID then
        (PerenaSwapAccounts.tryFrom accounts).map .Perena
      else if detector.address = SOLFI_PROGRAM_ID then
        (SolFiSwapAccounts.tryFrom accounts).map .SolFi
      else if detector.address = SOLFI_V2_PROGRAM_ID then
        (SolFiV2SwapAccounts.tryFrom accounts).map .SolFiV2
      else if detector.address = MANIFEST_PROGRAM_ID then
        (ManifestSwapAccounts.tryFrom accounts).map .Manifest
      else if detector.address = HEAVEN_PROGRAM_ID then
        (HeavenSwapAccounts.tryFrom accounts).map .Heaven
      else if detector.address = ALDRIN_PROGRAM_ID then
        (AldrinSwapAccounts.tryFrom accounts).map .Aldrin
      else if detector.address = ALDRIN_V2_PROGRAM_ID then
        (AldrinV2SwapAccounts.tryFrom accounts).map .AldrinV2
      else if detector.address = FUTARCHY_PROGRAM_ID then
        (FutarchySwapAccounts.tryFrom accounts).map .Futarchy
      else if detector.address = GAMMA_PROGRAM_ID then
        (GammaSwapAccounts.tryFrom accounts).map .Gamma
      else .error .invalidAccountData

/-- The free function `swap_signed`: detect, then dispatch with the
caller-supplied payload. -/
def swap_signed (accounts : List AccountView) (in_amount minimum_out_amount : Nat)
    (data : SwapData) : Except ProgramError (List CPICall) :=
  match try_from_swap_context accounts with
  | .error e => .error e
  | .ok ctx => SwapContext.swap_signed ctx in_amount minimum_out_amount data

/-- The free function `swap` is `swap_signed` with empty seeds; seeds do
not affect the modelled observations. -/
def swap (accounts : List AccountView) (in_amount minimum_out_amount : Nat)
    (data : SwapData) : Except ProgramError (List CPICall) :=
  swap_signed accounts in_amount minimum_out_amount data

inductive DepositContext
  | Kamino (ctx : KaminoDepositAccounts)
  | Jupiter (ctx : JupiterEarnDepositAccounts)
deriving DecidableEq, Repr

/-- `try_from_deposit_context`: Kamino is checked before Jupiter. -/
def try_from_deposit_context (accounts : List AccountView) :
    Except ProgramError DepositContext :=
  match accounts with
  | [] => .error .notEnoughAccountKeys
  | detector :: _ =>
      if detector.address = KAMINO_LEND_PROGRAM_ID then
        (KaminoDepositAccounts.tryFrom accounts).map .Kamino
      else if detector.address = JUPITER_EARN_PROGRAM_ID then
        (JupiterEarnDepositAccounts.tryFrom accounts).map .Jupiter
      else .error .invalidAccountData

/-! ## Concrete sample inputs used by witnesses and counterexamples -/

/-- A generic account with a distinctive address and an owner that is
none of the program ids. -/
def sampleAccount (n : Nat) : AccountView := ⟨100 + n, 50⟩

/-- 19 fixed Kamino accounts followed by owners
`[target, target, other, target]`. -/
def c1Example : List AccountView :=
  (List.range 19).map sampleAccount ++
    [⟨200, KAMINO_LEND_PROGRAM_ID⟩, ⟨201, KAMINO_LEND_PROGRAM_ID⟩,
     ⟨202, 50⟩, ⟨203, KAMINO_LEND_PROGRAM_ID⟩]

/-- A list of `n` generic accounts. -/
def sampleAccounts (n : Nat) : List AccountView :=
  (List.range n).map sampleAccount

/-- Concrete Manifest account context for the C5 scenario. -/
def c5ctx : ManifestSwapAccounts :=
  ⟨sampleAccount 0, sampleAccount 1, sampleAccount 2, sampleAccount 3,
   sampleAccount 4, sampleAccount 5, sampleAccount 6, sampleAccount 7,
   sampleAccount 8, sampleAccount 9, sampleAccount 10, sampleAccount 11,
   sampleAccount 12, sampleAccount 13, sampleAccount 14⟩

/-- Concrete Heaven account context for witnesses. -/
def c7ctx : HeavenSwapAccounts :=
  ⟨sampleAccount 0, sampleAccount 1, sampleAccount 2, sampleAccount 3,
   sampleAccount 4, sampleAccount 5, sampleAccount 6, sampleAccount 7,
   sampleAccount 8, sampleAccount 9, sampleAccount 10, sampleAccount 11,
   sampleAccount 12, sampleAccount 13, sampleAccount 14, sampleAccount 15,
   sampleAccount 16⟩

/-- 15 accounts whose first account carries the Manifest program
address, detecting as Manifest. -/
def c8accs : List AccountView :=
  ⟨MANIFEST_PROGRAM_ID, 50⟩ :: sampleAccounts 14

/-- The Manifest context that `c8accs` parses to. -/
def c8mctx : ManifestSwapAccounts :=
  ⟨⟨MANIFEST_PROGRAM_ID, 50⟩, sampleAccount 0, sampleAccount 1, sampleAccount 2,
   sampleAccount 3, sampleAccount 4, sampleAccount 5, sampleAccount 6,
   sampleAccount 7, sampleAccount 8, sampleAccount 9, sampleAccount 10,
   sampleAccount 11, sampleAccount 12, sampleAccount 13⟩

/-- A Kamino deposit context holding exactly two tail reserves. -/
def c3ctx : KaminoDepositAccounts :=
  ⟨sampleAccount 0, sampleAccount 1, sampleAccount 2, sampleAccount 3,
   sampleAccount 4, sampleAccount 5, sampleAccount 6, sampleAccount 7,
   sampleAccount 8, sampleAccount 9, sampleAccount 10, sampleAccount 11,
   sampleAccount 12, sampleAccount 13, sampleAccount 14, sampleAccount 15,
   sampleAccount 16, sampleAccount 17, sampleAccount 18,
   [⟨300, KAMINO_LEND_PROGRAM_ID⟩, ⟨301, KAMINO_LEND_PROGRAM_ID⟩]⟩

/-- The three account-parsing properties shared by every fixed-arity
protocol parser with minimum account count `n`: a shorter slice fails
with `NotEnoughAccountKeys`; a slice of at least `n` accounts (any
addresses) parses; accounts beyond the first `n` do not change the
parse result. -/
def parserProps {α : Type} (n : Nat) (P : List AccountView → Except ProgramError α) : Prop :=
  (∀ accs : List AccountView, accs.length < n →
    P accs = .error .notEnoughAccountKeys) ∧
  (∀ accs : List AccountView, n ≤ accs.length → ∃ c, P accs = .ok c) ∧
  (∀ (accs extra : List AccountView), accs.length = n →
    P (accs ++ extra) = P accs)

/-! ## Supporting lemmas -/

/-- The counter-threaded reserve scan computes the length of the
owned-by prefix, capped at 13. -/
theorem kaminoTotal_eq (l : List AccountView) : ∀ k, k ≤ 13 →
    kaminoTotalReserveAccounts l k =
      k + min ((l.takeWhile
        (fun a => a.owned_by KAMINO_LEND_PROGRAM_ID)).length) (13 - k) := by
  induction l with
  | nil => intro k hk; simp [kaminoTotalReserveAccounts]
  | cons r rest ih =>
    intro k hk
    by_cases hr : r.owned_by KAMINO_LEND_PROGRAM_ID
    · by_cases hk13 : k < 13
      · rw [kaminoTotalReserveAccounts, if_pos (by simp [hr, hk13]),
          ih (k + 1) (by omega)]
        simp only [List.takeWhile_cons, hr, if_true, List.length_cons]
        omega
      · rw [kaminoTotalReserveAccounts, if_neg (by simp [hk13])]
        omega
    · rw [kaminoTotalReserveAccounts, if_neg (by simp [hr])]
      simp [List.takeWhile_cons, hr]

/-- C1: for any account slice with the 19-account fixed prefix, the
Kamino deposit parser's `reserve_accounts` tail is the maximal
owned-by-the-lending-program prefix of the remaining accounts capped at
13; on the concrete owner pattern `[target, target, other, target]` the
tail is the first two accounts (the scan stops at the first non-owned
account even though a later one is owned). -/
theorem c1_kamino_reserve_tail :
    (∀ accounts : List AccountView, 19 ≤ accounts.length →
      ∃ ctx, KaminoDepositAccounts.tryFrom accounts = .ok ctx ∧
        ctx.reserve_accounts =
          (accounts.drop 19).take
            (min ((accounts.drop 19).takeWhile
              (fun a => a.owned_by KAMINO_LEND_PROGRAM_ID)).length 13)) ∧
    (KaminoDepositAccounts.tryFrom c1Example).map (fun ctx => ctx.reserve_accounts) =
      .ok [⟨200, KAMINO_LEND_PROGRAM_ID⟩, ⟨201, KAMINO_LEND_PROGRAM_ID⟩] := by
  constructor
  · intro accounts h
    rw [KaminoDepositAccounts.tryFrom, dif_neg (by omega)]
    exact ⟨_, rfl, by rw [kaminoTotal_eq _ 0 (by omega)]; simp⟩
  · decide

/-- Witness for C1 at the concrete `[target, target, other, target]`
remainder. -/
theorem c1_kamino_reserve_tail_witness :
    ∃ ctx, KaminoDepositAccounts.tryFrom c1Example = .ok ctx ∧
      ctx.reserve_accounts =
        (c1Example.drop 19).take
          (min ((c1Example.drop 19).takeWhile
            (fun a => a.owned_by KAMINO_LEND_PROGRAM_ID)).length 13) :=
  c1_kamino_reserve_tail.1 c1Example (by decide)

/-- Taking `|A| + m` elements of `A ++ B` keeps all of `A` and `m`
elements of `B`. -/
theorem take_append_left_plus {α : Type} (A B : List α) (m : Nat) :
    (A ++ B).take (A.length + m) = A ++ B.take m := by
  induction A with
  | nil => simp
  | cons a A ih =>
    show List.take ((A.length + 1) + m) (a :: (A ++ B)) = a :: (A ++ List.take m B)
    rw [Nat.add_right_comm, List.take_succ_cons, ih]

/-- C10: the boolean-flag payload parsers (SolFi, SolFi V2, Manifest)
accept every payload of at least their minimum length, decoding each
flag byte as true exactly when it is nonzero; the enum-discriminator
parsers (Aldrin, Aldrin V2, Futarchy, Heaven) reject every leading byte
outside `{0, 1}`. -/
theorem c10_flag_parsers_total :
    (∀ (b : Nat) (rest : List Nat),
      SolFiSwapData.tryFrom (b :: rest) = .ok ⟨b != 0⟩) ∧
    (∀ (b : Nat) (rest : List Nat),
      SolFiV2SwapData.tryFrom (b :: rest) = .ok ⟨b != 0⟩) ∧
    (∀ (b0 b1 : Nat) (rest : List Nat),
      ManifestSwapData.tryFrom (b0 :: b1 :: rest) = .ok ⟨b0 != 0, b1 != 0⟩) ∧
    (∀ (b : Nat) (rest : List Nat), 2 ≤ b →
      AldrinSwapData.tryFrom (b :: rest) = .error .invalidInstructionData) ∧
    (∀ (b : Nat) (rest : List Nat), 2 ≤ b →
      AldrinV2SwapData.tryFrom (b :: rest) = .error .invalidInstructionData) ∧
    (∀ (b : Nat) (rest : List Nat), 2 ≤ b →
      FutarchySwapData.tryFrom (b :: rest) = .error .invalidInstructionData) ∧
    (∀ (b : Nat) (rest : List Nat), 2 ≤ b →
      HeavenSwapData.tryFrom (b :: rest) = .error .invalidInstructionData) := by
  refine ⟨fun b rest => rfl, fun b rest => rfl, fun b0 b1 rest => ?_, ?_, ?_, ?_, ?_⟩
  · rw [ManifestSwapData.tryFrom, dif_neg (by simp)]
    rfl
  all_goals
    intro b rest hb
    match b, hb with
    | n + 2, _ => rfl

/-- Witness for C10's enum-rejection conjuncts at the byte 2. -/
theorem c10_flag_parsers_total_witness :
    AldrinSwapData.tryFrom (2 :: []) = .error .invalidInstructionData :=
  c10_flag_parsers_total.2.2.2.1 2 [] (by decide)

/-- C5: the payload `[1, 1]` parses to both flags true, and
`Manifest::swap_signed` with `in_amount = 100_000_000`,
`minimum_out_amount = 1` issues exactly one CPI whose data is the
19-byte buffer `[13, 100_000_000 le64, 1 le64, 1, 1]`. -/
theorem c5_manifest_concrete :
    ManifestSwapData.tryFrom [1, 1] = .ok ⟨true, true⟩ ∧
    (Manifest.swap_signed c5ctx 100000000 1 ⟨true, true⟩).map
        (fun calls => calls.map CPICall.data) =
      .ok [[13, 0, 225, 245, 5, 0, 0, 0, 0, 1, 0, 0, 0, 0, 0, 0, 0, 1, 1]] := by
  decide

/-- C4 fails on the code: the Perena encoder does not place the two
little-endian amount fields directly after the selector; at
`in_amount = 0`, `minimum_out_amount = 0`, indices `(5, 6)` the
assembled buffer differs from the claimed
selector-amounts-then-protocol-bytes layout. -/
theorem c4_counterexample :
    perenaSwapIxData 0 0 ⟨5, 6⟩ ≠
      PERENA_SWAP_DISCRIMINATOR ++ leBytes8 0 ++ leBytes8 0 ++ [5, 6] := by
  decide

/-- Overwriting at offset 28 and keeping `28 + |ev|` bytes yields the
28-byte prefix followed by `ev`. -/
theorem take_writeAt_28 (A ev : List Nat) (h : 28 ≤ A.length) :
    (writeBytesAt A 28 ev).take (28 + ev.length) = A.take 28 ++ ev := by
  rw [writeBytesAt, List.append_assoc]
  have hlen : (A.take 28).length = 28 := by
    rw [List.length_take]; omega
  calc (A.take 28 ++ (ev ++ A.drop (28 + ev.length))).take (28 + ev.length)
      = (A.take 28 ++ (ev ++ A.drop (28 + ev.length))).take
          ((A.take 28).length + ev.length) := by rw [hlen]
    _ = A.take 28 ++ (ev ++ A.drop (28 + ev.length)).take ev.length :=
        take_append_left_plus _ _ _
    _ = A.take 28 ++ ev := by rw [List.take_left]

/-- `writeBytesAt` never shrinks a buffer. -/
theorem length_writeBytesAt_ge (buf bs : List Nat) (off : Nat) :
    buf.length ≤ (writeBytesAt buf off bs).length := by
  rw [writeBytesAt]
  simp only [List.length_append, List.length_take, List.length_drop]
  omega

/-- The Heaven non-empty-event buffer, as issued, is the discriminator,
the two amounts, the u32 length prefix and the event bytes. -/
theorem heavenSwapIxDataEvent_eq (i m : Nat) (dir : SwapDirection) (ev : List Nat) :
    heavenSwapIxDataEvent i m dir ev =
      heavenDiscriminator dir ++ leBytes8 i ++ leBytes8 m ++
        leBytes4 ev.length ++ ev := by
  have hA : 28 ≤ (writeBytesAt (writeBytesAt (writeBytesAt (writeBytesAt
      (uninitBuf (28 + 256)) 0 (heavenDiscriminator dir))
      8 (leBytes8 i)) 16 (leBytes8 m)) 24 (leBytes4 ev.length)).length := by
    calc (28 : Nat)
        ≤ (uninitBuf (28 + 256)).length := by
          show 28 ≤ (List.replicate (28 + 256) (0 : Nat)).length
          rw [List.length_replicate]
          omega
      _ ≤ _ := length_writeBytesAt_ge _ (heavenDiscriminator dir) 0
      _ ≤ _ := length_writeBytesAt_ge _ (leBytes8 i) 8
      _ ≤ _ := length_writeBytesAt_ge _ (leBytes8 m) 16
      _ ≤ _ := length_writeBytesAt_ge _ (leBytes4 ev.length) 24
  cases dir <;>
    · rw [heavenSwapIxDataEvent, take_writeAt_28 _ _ hA]
      rfl

/-- C4 amended: every swap encoder assembles selector bytes first and
both amount fields as contiguous 8-byte little-endian spans at fixed
offsets, but the protocol-specific bytes are not always last: SolFi,
SolFi V2, Manifest, Aldrin, Aldrin V2, Gamma and Heaven place the
amounts directly after the selector with the protocol bytes after them,
while Perena places its two index bytes between the selector and the
amounts, and Futarchy places its direction byte between `in_amount` and
`minimum_out_amount`. -/
theorem c4_amended_layouts :
    (∀ i m (d : SolFiSwapData), solfiSwapIxData i m d =
      [SOLFI_SWAP_DISCRIMINATOR] ++ leBytes8 i ++ leBytes8 m ++
        [boolU8 d.is_quote_to_base]) ∧
    (∀ i m (d : SolFiV2SwapData), solfiV2SwapIxData i m d =
      [SOLFI_V2_SWAP_DISCRIMINATOR] ++ leBytes8 i ++ leBytes8 m ++
        [boolU8 d.is_quote_to_base]) ∧
    (∀ i m (d : ManifestSwapData), manifestSwapIxData i m d =
      [MANIFEST_SWAP_DISCRIMINATOR] ++ leBytes8 i ++ leBytes8 m ++
        [boolU8 d.is_base_in, boolU8 d.is_exact_in]) ∧
    (∀ i m (d : AldrinSwapData), aldrinSwapIxData i m d =
      ALDRIN_SWAP_DISCRIMINATOR ++ leBytes8 i ++ leBytes8 m ++
        [match d.side with | .Bid => 0 | .Ask => 1]) ∧
    (∀ i m (d : AldrinV2SwapData), aldrinV2SwapIxData i m d =
      ALDRIN_V2_SWAP_DISCRIMINATOR ++ leBytes8 i ++ leBytes8 m ++
        [match d.side with | .Bid => 0 | .Ask => 1]) ∧
    (∀ i m, gammaSwapIxData i m =
      GAMMA_SWAP_DISCRIMINATOR ++ leBytes8 i ++ leBytes8 m) ∧
    (∀ i m dir, heavenSwapIxDataEmpty i m dir =
      heavenDiscriminator dir ++ leBytes8 i ++ leBytes8 m ++ leBytes4 0) ∧
    (∀ i m dir (ev : List Nat), ev.length ≤ 256 →
      heavenSwapIxDataEvent i m dir ev =
        heavenDiscriminator dir ++ leBytes8 i ++ leBytes8 m ++
          leBytes4 ev.length ++ ev) ∧
    (∀ i m (d : PerenaSwapData), perenaSwapIxData i m d =
      PERENA_SWAP_DISCRIMINATOR ++ [d.in_index, d.out_index] ++
        leBytes8 i ++ leBytes8 m) ∧
    (∀ i m (d : FutarchySwapData), futarchySwapIxData i m d =
      FUTARCHY_SWAP_DISCRIMINATOR ++ leBytes8 i ++
        [match d.swap_type with | .Buy => 0 | .Sell => 1] ++ leBytes8 m) := by
  exact ⟨fun i m d => rfl, fun i m d => rfl, fun i m d => rfl, fun i m d => rfl,
    fun i m d => rfl, fun i m => rfl, fun i m dir => by cases dir <;> rfl,
    fun i m dir ev hle => heavenSwapIxDataEvent_eq i m dir ev,
    fun i m d => rfl, fun i m d => rfl⟩

/-- Witness for C4's amended Heaven conjunct at a one-byte event. -/
theorem c4_amended_layouts_witness :
    heavenSwapIxDataEvent 7 9 .Buy [42] =
      heavenDiscriminator .Buy ++ leBytes8 7 ++ leBytes8 9 ++
        leBytes4 ([42] : List Nat).length ++ [42] :=
  c4_amended_layouts.2.2.2.2.2.2.2.1 7 9 .Buy [42] (by decide)

/-- C7: Heaven `swap_signed` rejects event spans longer than 256 bytes
with `InvalidInstructionData` and issues no CPI; for spans of length at
most 256 it issues exactly one CPI whose data has length
`28 + event_len`; in particular a zero-length event still produces the
well-formed 28-byte buffer with a zero little-endian u32 length
prefix. -/
theorem c7_heaven_event_bound :
    (∀ (ctx : HeavenSwapAccounts) (i m : Nat) (d : HeavenSwapData),
      256 < d.event.length →
        Heaven.swap_signed ctx i m d = .error .invalidInstructionData) ∧
    (∀ (ctx : HeavenSwapAccounts) (i m : Nat) (d : HeavenSwapData),
      d.event.length ≤ 256 →
        ∃ ix, Heaven.swap_signed ctx i m d = .ok [ix] ∧
          ix.data.length = 28 + d.event.length) ∧
    (∀ (ctx : HeavenSwapAccounts) (i m : Nat) (dir : SwapDirection),
      Heaven.swap_signed ctx i m ⟨dir, []⟩ =
        .ok [{ program_id := HEAVEN_PROGRAM_ID
               accounts := heavenSwapIxAccounts ctx
               data := heavenDiscriminator dir ++ leBytes8 i ++ leBytes8 m ++
                 leBytes4 0
               account_infos := heavenSwapIxInfos ctx }]) := by
  refine ⟨?_, ?_, ?_⟩
  · intro ctx i m d h
    rw [Heaven.swap_signed, if_neg (by omega), if_pos (by omega)]
  · intro ctx i m d h
    by_cases h0 : d.event.length = 0
    · rw [Heaven.swap_signed, if_pos h0]
      refine ⟨_, rfl, ?_⟩
      rw [h0]
      cases d.direction <;> rfl
    · rw [Heaven.swap_signed, if_neg h0, if_neg (by omega)]
      refine ⟨_, rfl, ?_⟩
      rw [heavenSwapIxDataEvent_eq]
      cases d.direction <;>
        · simp [heavenDiscriminator, HEAVEN_BUY_DISCRIMINATOR,
            HEAVEN_SELL_DISCRIMINATOR, leBytes8, leBytes4]
          omega
  · intro ctx i m dir
    rw [Heaven.swap_signed,
      if_pos (show ({ direction := dir, event := [] } : HeavenSwapData).event.length = 0
        from rfl)]
    cases dir <;> rfl

/-- Witness for C7 at an over-long event (257 bytes) and at the empty
event. -/
theorem c7_heaven_event_bound_witness :
    Heaven.swap_signed c7ctx 1 2 ⟨.Buy, List.replicate 257 3⟩ =
      .error .invalidInstructionData ∧
    ∃ ix, Heaven.swap_signed c7ctx 1 2 ⟨.Sell, []⟩ = .ok [ix] ∧
      ix.data.length = 28 + ([] : List Nat).length :=
  ⟨c7_heaven_event_bound.1 c7ctx 1 2 ⟨.Buy, List.replicate 257 3⟩
      (by rw [List.length_replicate]; omega),
   c7_heaven_event_bound.2.1 c7ctx 1 2 ⟨.Sell, []⟩ (by decide)⟩

theorem perena_parserProps : parserProps 12 PerenaSwapAccounts.tryFrom := by
  refine ⟨?_, ?_, ?_⟩
  · intro accs h
    rw [PerenaSwapAccounts.tryFrom, dif_pos h]
  · intro accs h
    rw [PerenaSwapAccounts.tryFrom, dif_neg (by omega)]
    exact ⟨_, rfl⟩
  · intro accs extra h
    rw [PerenaSwapAccounts.tryFrom, PerenaSwapAccounts.tryFrom,
      dif_neg (by rw [List.length_append]; omega), dif_neg (by omega)]
    simp only [List.get_eq_getElem, Except.ok.injEq, PerenaSwapAccounts.mk.injEq]
    repeat' apply And.intro
    all_goals exact List.getElem_append_left (by omega)

theorem solfi_parserProps : parserProps 9 SolFiSwapAccounts.tryFrom := by
  refine ⟨?_, ?_, ?_⟩
  · intro accs h
    rw [SolFiSwapAccounts.tryFrom, dif_pos h]
  · intro accs h
    rw [SolFiSwapAccounts.tryFrom, dif_neg (by omega)]
    exact ⟨_, rfl⟩
  · intro accs extra h
    rw [SolFiSwapAccounts.tryFrom, SolFiSwapAccounts.tryFrom,
      dif_neg (by rw [List.length_append]; omega), dif_neg (by omega)]
    simp only [List.get_eq_getElem, Except.ok.injEq, SolFiSwapAccounts.mk.injEq]
    repeat' apply And.intro
    all_goals exact List.getElem_append_left (by omega)

theorem solfiV2_parserProps : parserProps 14 SolFiV2SwapAccounts.tryFrom := by
  refine ⟨?_, ?_, ?_⟩
  · intro accs h
    rw [SolFiV2SwapAccounts.tryFrom, dif_pos h]
  · intro accs h
    rw [SolFiV2SwapAccounts.tryFrom, dif_neg (by omega)]
    exact ⟨_, rfl⟩
  · intro accs extra h
    rw [SolFiV2SwapAccounts.tryFrom, SolFiV2SwapAccounts.tryFrom,
      dif_neg (by rw [List.length_append]; omega), dif_neg (by omega)]
    simp only [List.get_eq_getElem, Except.ok.injEq, SolFiV2SwapAccounts.mk.injEq]
    repeat' apply And.intro
    all_goals exact List.getElem_append_left (by omega)

theorem manifest_parserProps : parserProps 15 ManifestSwapAccounts.tryFrom := by
  refine ⟨?_, ?_, ?_⟩
  · intro accs h
    rw [ManifestSwapAccounts.tryFrom, dif_pos h]
  · intro accs h
    rw [ManifestSwapAccounts.tryFrom, dif_neg (by omega)]
    exact ⟨_, rfl⟩
  · intro accs extra h
    rw [ManifestSwapAccounts.tryFrom, ManifestSwapAccounts.tryFrom,
      dif_neg (by rw [List.length_append]; omega), dif_neg (by omega)]
    simp only [List.get_eq_getElem, Except.ok.injEq, ManifestSwapAccounts.mk.injEq]
    repeat' apply And.intro
    all_goals exact List.getElem_append_left (by omega)

theorem heaven_parserProps : parserProps 17 HeavenSwapAccounts.tryFrom := by
  refine ⟨?_, ?_, ?_⟩
  · intro accs h
    rw [HeavenSwapAccounts.tryFrom, dif_pos h]
  · intro accs h
    rw [HeavenSwapAccounts.tryFrom, dif_neg (by omega)]
    exact ⟨_, rfl⟩
  · intro accs extra h
    rw [HeavenSwapAccounts.tryFrom, HeavenSwapAccounts.tryFrom,
      dif_neg (by rw [List.length_append]; omega), dif_neg (by omega)]
    simp only [List.get_eq_getElem, Except.ok.injEq, HeavenSwapAccounts.mk.injEq]
    repeat' apply And.intro
    all_goals exact List.getElem_append_left (by omega)

theorem aldrin_parserProps : parserProps 11 AldrinSwapAccounts.tryFrom := by
  refine ⟨?_, ?_, ?_⟩
  · intro accs h
    rw [AldrinSwapAccounts.tryFrom, dif_pos h]
  · intro accs h
    rw [AldrinSwapAccounts.tryFrom, dif_neg (by omega)]
    exact ⟨_, rfl⟩
  · intro accs extra h
    rw [AldrinSwapAccounts.tryFrom, AldrinSwapAccounts.tryFrom,
      dif_neg (by rw [List.length_append]; omega), dif_neg (by omega)]
    simp only [List.get_eq_getElem, Except.ok.injEq, AldrinSwapAccounts.mk.injEq]
    repeat' apply And.intro
    all_goals exact List.getElem_append_left (by omega)

theorem aldrinV2_parserProps : parserProps 12 AldrinV2SwapAccounts.tryFrom := by
  refine ⟨?_, ?_, ?_⟩
  · intro accs h
    rw [AldrinV2SwapAccounts.tryFrom, dif_pos h]
  · intro accs h
    rw [AldrinV2SwapAccounts.tryFrom, dif_neg (by omega)]
    exact ⟨_, rfl⟩
  · intro accs extra h
    rw [AldrinV2SwapAccounts.tryFrom, AldrinV2SwapAccounts.tryFrom,
      dif_neg (by rw [List.length_append]; omega), dif_neg (by omega)]
    simp only [List.get_eq_getElem, Except.ok.injEq, AldrinV2SwapAccounts.mk.injEq]
    repeat' apply And.intro
    all_goals exact List.getElem_append_left (by omega)

theorem futarchy_parserProps : parserProps 10 FutarchySwapAccounts.tryFrom := by
  refine ⟨?_, ?_, ?_⟩
  · intro accs h
    rw [FutarchySwapAccounts.tryFrom, dif_pos h]
  · intro accs h
    rw [FutarchySwapAccounts.tryFrom, dif_neg (by omega)]
    exact ⟨_, rfl⟩
  · intro accs extra h
    rw [FutarchySwapAccounts.tryFrom, FutarchySwapAccounts.tryFrom,
      dif_neg (by rw [List.length_append]; omega), dif_neg (by omega)]
    simp only [List.get_eq_getElem, Except.ok.injEq, FutarchySwapAccounts.mk.injEq]
    repeat' apply And.intro
    all_goals exact List.getElem_append_left (by omega)

theorem gamma_parserProps : parserProps 14 GammaSwapAccounts.tryFrom := by
  refine ⟨?_, ?_, ?_⟩
  · intro accs h
    rw [GammaSwapAccounts.tryFrom, dif_pos h]
  · intro accs h
    rw [GammaSwapAccounts.tryFrom, dif_neg (by omega)]
    exact ⟨_, rfl⟩
  · intro accs extra h
    rw [GammaSwapAccounts.tryFrom, GammaSwapAccounts.tryFrom,
      dif_neg (by rw [List.length_append]; omega), dif_neg (by omega)]
    simp only [List.get_eq_getElem, Except.ok.injEq, GammaSwapAccounts.mk.injEq]
    repeat' apply And.intro
    all_goals exact List.getElem_append_left (by omega)

theorem jupiter_parserProps : parserProps 18 JupiterEarnDepositAccounts.tryFrom := by
  refine ⟨?_, ?_, ?_⟩
  · intro accs h
    rw [JupiterEarnDepositAccounts.tryFrom, dif_pos h]
  · intro accs h
    rw [JupiterEarnDepositAccounts.tryFrom, dif_neg (by omega)]
    exact ⟨_, rfl⟩
  · intro accs extra h
    rw [JupiterEarnDepositAccounts.tryFrom, JupiterEarnDepositAccounts.tryFrom,
      dif_neg (by rw [List.length_append]; omega), dif_neg (by omega)]
    simp only [List.get_eq_getElem, Except.ok.injEq,
      JupiterEarnDepositAccounts.mk.injEq]
    repeat' apply And.intro
    all_goals exact List.getElem_append_left (by omega)

/-- Kamino's parser: short slices fail; exactly 19 accounts parse with
an empty reserve tail; appending accounts that the tail scan does not
consume (the first appended account not owned by the lending program)
leaves the parse unchanged. -/
theorem kamino_parserProps :
    (∀ accs : List AccountView, accs.length < 19 →
      KaminoDepositAccounts.tryFrom accs = .error .notEnoughAccountKeys) ∧
    (∀ accs : List AccountView, accs.length = 19 →
      ∃ c, KaminoDepositAccounts.tryFrom accs = .ok c ∧ c.reserve_accounts = []) ∧
    (∀ (accs extra : List AccountView), accs.length = 19 →
      (∀ a, extra.head? = some a → a.owned_by KAMINO_LEND_PROGRAM_ID = false) →
      KaminoDepositAccounts.tryFrom (accs ++ extra) =
        KaminoDepositAccounts.tryFrom accs) := by
  refine ⟨?_, ?_, ?_⟩
  · intro accs h
    rw [KaminoDepositAccounts.tryFrom, dif_pos h]
  · intro accs h
    rw [KaminoDepositAccounts.tryFrom, dif_neg (by omega)]
    refine ⟨_, rfl, ?_⟩
    have hdrop : accs.drop 19 = [] := by
      rw [← h]
      exact List.drop_length accs
    simp [hdrop, kaminoTotalReserveAccounts]
  · intro accs extra h hex
    rw [KaminoDepositAccounts.tryFrom, KaminoDepositAccounts.tryFrom,
      dif_neg (by rw [List.length_append]; omega), dif_neg (by omega)]
    have hdrop1 : (accs ++ extra).drop 19 = extra := List.drop_left' h
    have hdrop2 : accs.drop 19 = [] := by
      rw [← h]
      exact List.drop_length accs
    have htail : kaminoTotalReserveAccounts extra 0 = 0 := by
      cases extra with
      | nil => rfl
      | cons a rest =>
        rw [kaminoTotalReserveAccounts, if_neg (by simp [hex a rfl])]
    simp only [hdrop1, hdrop2, htail, List.get_eq_getElem, Except.ok.injEq,
      KaminoDepositAccounts.mk.injEq, List.take_zero, kaminoTotalReserveAccounts,
      List.take_nil]
    repeat' apply And.intro
    all_goals first
      | trivial
      | exact List.getElem_append_left (by omega)

/-- C6: for every protocol's account-context parser, a slice shorter
than the protocol's fixed minimum fails with `NotEnoughAccountKeys`, a
slice with exactly the minimum count succeeds regardless of addresses,
and accounts beyond what is consumed are ignored (the parse result is
unchanged). -/
theorem c6_parser_minimums :
    parserProps 12 PerenaSwapAccounts.tryFrom ∧
    parserProps 9 SolFiSwapAccounts.tryFrom ∧
    parserProps 14 SolFiV2SwapAccounts.tryFrom ∧
    parserProps 15 ManifestSwapAccounts.tryFrom ∧
    parserProps 17 HeavenSwapAccounts.tryFrom ∧
    parserProps 11 AldrinSwapAccounts.tryFrom ∧
    parserProps 12 AldrinV2SwapAccounts.tryFrom ∧
    parserProps 10 FutarchySwapAccounts.tryFrom ∧
    parserProps 14 GammaSwapAccounts.tryFrom ∧
    parserProps 18 JupiterEarnDepositAccounts.tryFrom ∧
    (∀ accs : List AccountView, accs.length < 19 →
      KaminoDepositAccounts.tryFrom accs = .error .notEnoughAccountKeys) ∧
    (∀ accs : List AccountView, accs.length = 19 →
      ∃ c, KaminoDepositAccounts.tryFrom accs = .ok c ∧ c.reserve_accounts = []) ∧
    (∀ (accs extra : List AccountView), accs.length = 19 →
      (∀ a, extra.head? = some a → a.owned_by KAMINO_LEND_PROGRAM_ID = false) →
      KaminoDepositAccounts.tryFrom (accs ++ extra) =
        KaminoDepositAccounts.tryFrom accs) :=
  ⟨perena_parserProps, solfi_parserProps, solfiV2_parserProps, manifest_parserProps,
   heaven_parserProps, aldrin_parserProps, aldrinV2_parserProps, futarchy_parserProps,
   gamma_parserProps, jupiter_parserProps, kamino_parserProps.1,
   kamino_parserProps.2.1, kamino_parserProps.2.2⟩

/-- Witness for C6: Heaven's parser on exactly 17 generic accounts, and
its failure on 16. -/
theorem c6_parser_minimums_witness :
    (∃ c, HeavenSwapAccounts.tryFrom (sampleAccounts 17) = .ok c) ∧
    HeavenSwapAccounts.tryFrom (sampleAccounts 16) =
      .error .notEnoughAccountKeys :=
  ⟨c6_parser_minimums.2.2.2.2.1.2.1 (sampleAccounts 17) (by decide),
   c6_parser_minimums.2.2.2.2.1.1 (sampleAccounts 16) (by decide)⟩

/-- C2 fails on the code: a single-account slice whose account 0
carries the SolFi program address is non-empty, yet detection fails
with the insufficient-accounts error (the matched protocol's parser
needs 9 accounts), not with `Ok`. -/
theorem c2_counterexample :
    ([⟨SOLFI_PROGRAM_ID, 50⟩] : List AccountView) ≠ [] ∧
    (⟨SOLFI_PROGRAM_ID, 50⟩ : AccountView).address = SOLFI_PROGRAM_ID ∧
    try_from_swap_context [⟨SOLFI_PROGRAM_ID, 50⟩] =
      .error .notEnoughAccountKeys := by
  decide

/-- C2 amended: detection on an empty slice fails with
`NotEnoughAccountKeys`; otherwise the first protocol (in compiled-in
priority order) whose program address equals account 0's address has
its account parser run and its result returned verbatim (so a matching
address with too few accounts surfaces the parser's
insufficient-accounts error rather than `Ok`); the two deposit
protocols share the all-zero program address, so a deposit detection on
that address always resolves to Kamino, the earlier variant; when no
compiled-in address matches, detection fails with `InvalidAccountData`. -/
theorem c2_amended_detection :
    (try_from_swap_context [] = .error .notEnoughAccountKeys) ∧
    (try_from_deposit_context [] = .error .notEnoughAccountKeys) ∧
    (∀ (a : AccountView) (rest : List AccountView), a.address = PERENA_PROGRAM_ID →
      try_from_swap_context (a :: rest) =
        (PerenaSwapAccounts.tryFrom (a :: rest)).map .Perena) ∧
    (∀ (a : AccountView) (rest : List AccountView), a.address = SOLFI_PROGRAM_ID →
      try_from_swap_context (a :: rest) =
        (SolFiSwapAccounts.tryFrom (a :: rest)).map .SolFi) ∧
    (∀ (a : AccountView) (rest : List AccountView), a.address = SOLFI_V2_PROGRAM_ID →
      try_from_swap_context (a :: rest) =
        (SolFiV2SwapAccounts.tryFrom (a :: rest)).map .SolFiV2) ∧
    (∀ (a : AccountView) (rest : List AccountView), a.address = MANIFEST_PROGRAM_ID →
      try_from_swap_context (a :: rest) =
        (ManifestSwapAccounts.tryFrom (a :: rest)).map .Manifest) ∧
    (∀ (a : AccountView) (rest : List AccountView), a.address = HEAVEN_PROGRAM_ID →
      try_from_swap_context (a :: rest) =
        (HeavenSwapAccounts.tryFrom (a :: rest)).map .Heaven) ∧
    (∀ (a : AccountView) (rest : List AccountView), a.address = ALDRIN_PROGRAM_ID →
      try_from_swap_context (a :: rest) =
        (AldrinSwapAccounts.tryFrom (a :: rest)).map .Aldrin) ∧
    (∀ (a : AccountView) (rest : List AccountView), a.address = ALDRIN_V2_PROGRAM_ID →
      try_from_swap_context (a :: rest) =
        (AldrinV2SwapAccounts.tryFrom (a :: rest)).map .AldrinV2) ∧
    (∀ (a : AccountView) (rest : List AccountView), a.address = FUTARCHY_PROGRAM_ID →
      try_from_swap_context (a :: rest) =
        (FutarchySwapAccounts.tryFrom (a :: rest)).map .Futarchy) ∧
    (∀ (a : AccountView) (rest : List AccountView), a.address = GAMMA_PROGRAM_ID →
      try_from_swap_context (a :: rest) =
        (GammaSwapAccounts.tryFrom (a :: rest)).map .Gamma) ∧
    (∀ (a : AccountView) (rest : List AccountView),
      a.address = KAMINO_LEND_PROGRAM_ID →
      try_from_deposit_context (a :: rest) =
        (KaminoDepositAccounts.tryFrom (a :: rest)).map .Kamino) ∧
    (∀ (a : AccountView) (rest : List AccountView),
      a.address = JUPITER_EARN_PROGRAM_ID →
      try_from_deposit_context (a :: rest) =
        (KaminoDepositAccounts.tryFrom (a :: rest)).map .Kamino) ∧
    (∀ (a : AccountView) (rest : List AccountView),
      a.address ≠ PERENA_PROGRAM_ID → a.address ≠ SOLFI_PROGRAM_ID →
      a.address ≠ SOLFI_V2_PROGRAM_ID → a.address ≠ MANIFEST_PROGRAM_ID →
      a.address ≠ HEAVEN_PROGRAM_ID → a.address ≠ ALDRIN_PROGRAM_ID →
      a.address ≠ ALDRIN_V2_PROGRAM_ID → a.address ≠ FUTARCHY_PROGRAM_ID →
      a.address ≠ GAMMA_PROGRAM_ID →
      try_from_swap_context (a :: rest) = .error .invalidAccountData) ∧
    (∀ (a : AccountView) (rest : List AccountView),
      a.address ≠ KAMINO_LEND_PROGRAM_ID → a.address ≠ JUPITER_EARN_PROGRAM_ID →
      try_from_deposit_context (a :: rest) = .error .invalidAccountData) := by
  refine ⟨rfl, rfl, ?_, ?_, ?_, ?_, ?_, ?_, ?_, ?_, ?_, ?_, ?_, ?_, ?_⟩
  all_goals
    intro a rest
    first
      | (intro h1 h2 h3 h4 h5 h6 h7 h8 h9
         simp [try_from_swap_context, h1, h2, h3, h4, h5, h6, h7, h8, h9])
      | (intro h1 h2
         simp [try_from_deposit_context, h1, h2])
      | (intro ha
         simp [try_from_swap_context, try_from_deposit_context, ha,
           PERENA_PROGRAM_ID, SOLFI_PROGRAM_ID, SOLFI_V2_PROGRAM_ID,
           MANIFEST_PROGRAM_ID, HEAVEN_PROGRAM_ID, ALDRIN_PROGRAM_ID,
           ALDRIN_V2_PROGRAM_ID, FUTARCHY_PROGRAM_ID, GAMMA_PROGRAM_ID,
           KAMINO_LEND_PROGRAM_ID, JUPITER_EARN_PROGRAM_ID])

/-- Witness for C2 amended: a Manifest-addressed first account forwards
to Manifest's parser, and a single deposit account with the shared
all-zero address resolves through Kamino's parser. -/
theorem c2_amended_detection_witness :
    try_from_swap_context (⟨MANIFEST_PROGRAM_ID, 50⟩ :: sampleAccounts 14) =
      (ManifestSwapAccounts.tryFrom
        (⟨MANIFEST_PROGRAM_ID, 50⟩ :: sampleAccounts 14)).map .Manifest ∧
    try_from_deposit_context [⟨JUPITER_EARN_PROGRAM_ID, 50⟩] =
      (KaminoDepositAccounts.tryFrom [⟨JUPITER_EARN_PROGRAM_ID, 50⟩]).map .Kamino :=
  ⟨c2_amended_detection.2.2.2.2.2.1 ⟨MANIFEST_PROGRAM_ID, 50⟩ (sampleAccounts 14) rfl,
   c2_amended_detection.2.2.2.2.2.2.2.2.2.2.2.2.1 ⟨JUPITER_EARN_PROGRAM_ID, 50⟩ [] rfl⟩

/-- Heaven's `swap_signed` can fail, but never with the dispatch
mismatch error `InvalidAccountData`. -/
theorem heaven_swap_no_invalid_account (a : HeavenSwapAccounts) (i m : Nat)
    (d : HeavenSwapData) :
    Heaven.swap_signed a i m d ≠ .error .invalidAccountData := by
  rw [Heaven.swap_signed]
  split
  · simp
  · split <;> simp

/-- C8 fails on the code: the free `swap_signed` takes the payload as a
caller-supplied argument instead of deriving it from the detected
context, so a Heaven payload over a slice that detects as Manifest
reaches the dispatch mismatch and the free function returns
`InvalidAccountData`. -/
theorem c8_counterexample :
    try_from_swap_context c8accs = .ok (.Manifest c8mctx) ∧
    SwapContext.swap_signed (.Manifest c8mctx) 1 1 (SwapData.Heaven ⟨.Buy, []⟩) =
      .error .invalidAccountData ∧
    swap_signed c8accs 1 1 (SwapData.Heaven ⟨.Buy, []⟩) =
      .error .invalidAccountData := by
  decide

/-- C8 amended: `SwapContext::swap_signed` fails with the
invalid-account-data error exactly when the context variant and payload
variant carry different protocol tags (matching tags dispatch to the
protocol encoder, which never produces that error), and the free
functions `swap_signed`/`swap` forward the caller-supplied payload to
that dispatch unchanged whenever detection succeeds — so they do
produce the mismatch failure when the supplied payload's tag differs
from the detected context's tag. -/
theorem c8_amended_dispatch :
    (∀ (ctx : SwapContext) (d : SwapData) (i m : Nat),
      SwapContext.swap_signed ctx i m d = .error .invalidAccountData ↔
        ctx.tag ≠ d.tag) ∧
    (∀ (accounts : List AccountView) (ctx : SwapContext) (d : SwapData) (i m : Nat),
      try_from_swap_context accounts = .ok ctx →
      swap_signed accounts i m d = SwapContext.swap_signed ctx i m d) ∧
    (∀ (accounts : List AccountView) (d : SwapData) (i m : Nat),
      swap accounts i m d = swap_signed accounts i m d) := by
  refine ⟨?_, ?_, fun accounts d i m => rfl⟩
  · intro ctx d i m
    cases ctx <;> cases d <;>
      simp [SwapContext.swap_signed, SwapContext.tag, SwapData.tag,
        Perena.swap_signed, SolFi.swap_signed, SolFiV2.swap_signed,
        Manifest.swap_signed, Aldrin.swap_signed, AldrinV2.swap_signed,
        Futarchy.swap_signed, Gamma.swap_signed, heaven_swap_no_invalid_account]
  · intro accounts ctx d i m h
    rw [swap_signed, h]

/-- Witness for C8 amended: the forwarding conjunct at the concrete
Manifest detection. -/
theorem c8_amended_dispatch_witness :
    swap_signed c8accs 3 4 (SwapData.Manifest ⟨true, false⟩) =
      SwapContext.swap_signed (.Manifest c8mctx) 3 4
        (SwapData.Manifest ⟨true, false⟩) :=
  c8_amended_dispatch.2.1 c8accs (.Manifest c8mctx)
    (SwapData.Manifest ⟨true, false⟩) 3 4 (by decide)

/-- C3: with exactly two tail reserves, `Kamino::deposit_signed`
prepares exactly 5 CPIs in the fixed order target-refresh, two
tail-reserve refreshes, obligation refresh (metadata: obligation
writable, lending market readonly, both tail reserves readonly), then
the deposit; when no refresh fails all five issue in order (the overall
result being the deposit call's outcome), and a failure at refresh `j`
returns that failure with only the first `j + 1` calls issued — in
particular the deposit is never reached. -/
theorem c3_kamino_deposit_sequence :
    ∀ (ctx : KaminoDepositAccounts) (amount : Nat) (r0 r1 : AccountView)
      (env : Nat → Option ProgramError),
      ctx.reserve_accounts = [r0, r1] →
      (kaminoDepositCPIs ctx amount).length = 5 ∧
      kaminoDepositCPIs ctx amount =
        [kaminoTargetRefreshIx ctx, kaminoTailRefreshIx ctx r0,
         kaminoTailRefreshIx ctx r1, kaminoObligationRefreshIx ctx,
         kaminoDepositIx ctx amount] ∧
      (kaminoTargetRefreshIx ctx).data = REFRESH_RESERVE_DISCRIMINATOR ∧
      (kaminoTailRefreshIx ctx r0).data = REFRESH_RESERVE_DISCRIMINATOR ∧
      (kaminoTailRefreshIx ctx r1).data = REFRESH_RESERVE_DISCRIMINATOR ∧
      (kaminoObligationRefreshIx ctx).accounts =
        [InstructionAccount.writable ctx.obligation.address,
         InstructionAccount.readonly ctx.lending_market.address,
         InstructionAccount.readonly r0.address,
         InstructionAccount.readonly r1.address] ∧
      (kaminoObligationRefreshIx ctx).data = REFRESH_OBLIGATION_DISCRIMINATOR ∧
      (kaminoDepositIx ctx amount).data =
        DEPOSIT_RESERVE_LIQUIDITY_AND_OBLIGATION_COLLATERAL_V2_DISCRIMINATOR ++
          leBytes8 amount ∧
      ((∀ k, k < 4 → env k = none) →
        Kamino.deposit_signed env ctx amount =
          (kaminoDepositCPIs ctx amount, env 4)) ∧
      (∀ j e, j < 4 → (∀ k, k < j → env k = none) → env j = some e →
        Kamino.deposit_signed env ctx amount =
          ((kaminoDepositCPIs ctx amount).take (j + 1), some e)) := by
  intro ctx amount r0 r1 env hres
  have hlist : kaminoDepositCPIs ctx amount =
      [kaminoTargetRefreshIx ctx, kaminoTailRefreshIx ctx r0,
       kaminoTailRefreshIx ctx r1, kaminoObligationRefreshIx ctx,
       kaminoDepositIx ctx amount] := by
    rw [kaminoDepositCPIs, hres]
    rfl
  refine ⟨by rw [hlist]; rfl, hlist, rfl, rfl, rfl,
    by rw [kaminoObligationRefreshIx, hres]; rfl, rfl,
    by rw [kaminoDepositIx, kaminoDepositIxData]; rfl, ?_, ?_⟩
  · intro hok
    rw [Kamino.deposit_signed, hlist]
    have h0 := hok 0 (by omega)
    have h1 := hok 1 (by omega)
    have h2 := hok 2 (by omega)
    have h3 := hok 3 (by omega)
    cases h4 : env 4 <;>
      simp [execCPIs, h0, h1, h2, h3, h4]
  · intro j e hj hlt hje
    rw [Kamino.deposit_signed, hlist]
    interval_cases j
    · simp [execCPIs, hje]
    · have h0 := hlt 0 (by omega)
      simp [execCPIs, h0, hje]
    · have h0 := hlt 0 (by omega)
      have h1 := hlt 1 (by omega)
      simp [execCPIs, h0, h1, hje]
    · have h0 := hlt 0 (by omega)
      have h1 := hlt 1 (by omega)
      have h2 := hlt 2 (by omega)
      simp [execCPIs, h0, h1, h2, hje]

/-- Witness for C3 at the concrete two-reserve context with an
all-success environment. -/
theorem c3_kamino_deposit_sequence_witness :
    (kaminoDepositCPIs c3ctx 5).length = 5 ∧
    Kamino.deposit_signed (fun _ => none) c3ctx 5 =
      (kaminoDepositCPIs c3ctx 5, none) :=
  ⟨(c3_kamino_deposit_sequence c3ctx 5 ⟨300, KAMINO_LEND_PROGRAM_ID⟩
      ⟨301, KAMINO_LEND_PROGRAM_ID⟩ (fun _ => none) rfl).1,
   (c3_kamino_deposit_sequence c3ctx 5 ⟨300, KAMINO_LEND_PROGRAM_ID⟩
      ⟨301, KAMINO_LEND_PROGRAM_ID⟩ (fun _ => none) rfl).2.2.2.2.2.2.2.2.1
      (fun _ _ => rfl)⟩

/-- C9: in the tail-reserve refresh loop, the CPI at position `1 + i`
names the `i`-th tail reserve as the writable first metadata entry, but
the first account view passed alongside is `ctx.reserve`, the target
reserve, on every iteration. -/
theorem c9_tail_refresh_views :
    ∀ (ctx : KaminoDepositAccounts) (amount : Nat) (i : Nat)
      (h : i < ctx.reserve_accounts.length),
      (kaminoDepositCPIs ctx amount)[1 + i]? =
        some (kaminoTailRefreshIx ctx (ctx.reserve_accounts.get ⟨i, h⟩)) ∧
      (kaminoTailRefreshIx ctx (ctx.reserve_accounts.get ⟨i, h⟩)).accounts.head? =
        some (InstructionAccount.writable (ctx.reserve_accounts.get ⟨i, h⟩).address) ∧
      (kaminoTailRefreshIx ctx (ctx.reserve_accounts.get ⟨i, h⟩)).account_infos.head? =
        some ctx.reserve := by
  intro ctx amount i h
  refine ⟨?_, rfl, rfl⟩
  rw [kaminoDepositCPIs, show 1 + i = i + 1 by omega, List.getElem?_cons_succ,
    List.getElem?_append_left (by rw [List.length_map]; exact h),
    List.getElem?_map, List.getElem?_eq_getElem h]
  rfl

/-- Witness for C9 at the concrete two-reserve context, first tail
reserve. -/
theorem c9_tail_refresh_views_witness :
    (kaminoDepositCPIs c3ctx 5)[1 + 0]? =
      some (kaminoTailRefreshIx c3ctx (c3ctx.reserve_accounts.get ⟨0, by decide⟩)) ∧
    (kaminoTailRefreshIx c3ctx
        (c3ctx.reserve_accounts.get ⟨0, by decide⟩)).accounts.head? =
      some (InstructionAccount.writable
        (c3ctx.reserve_accounts.get ⟨0, by decide⟩).address) ∧
    (kaminoTailRefreshIx c3ctx
        (c3ctx.reserve_accounts.get ⟨0, by decide⟩)).account_infos.head? =
      some c3ctx.reserve :=
  c9_tail_refresh_views c3ctx 5 0 (by decide)

end Beethoven
